import Mathlib

/-!
Verification of the spatial layout and interaction engine of the idea-map
application (src/IdeaMap.tsx and src/layout.ts), against its natural-language
specification.  The TypeScript code is shallowly embedded: pure numeric code
over JS doubles is modelled over exact arithmetic (rationals where the code
uses only field operations, reals where Math.sqrt / Math.log2 occur), mutable
per-frame state becomes explicit state passing, and Map/Set containers become
functions and finite sets.
-/

namespace IdeaMapSpec

/-- The clamp helper shared by IdeaMap.tsx and layout.ts:
clamp(n, min, max) = Math.max(min, Math.min(max, n)). -/
def clamp {α : Type*} [LinearOrder α] (n lo hi : α) : α :=
  max lo (min hi n)

/-! ## Camera and viewport mapping (IdeaMap.tsx, worldToScreen / screenToWorld / zoomAt)

The camera is {cx, cy, scale}; the canvas rect has width w and height h.
JS doubles are modelled by exact rationals. -/

structure Camera where
  cx : ℚ
  cy : ℚ
  scale : ℚ
deriving Repr, DecidableEq

/-- worldToScreen: screen = (world - center) * scale + viewport half size. -/
def worldToScreen (cam : Camera) (w h x y : ℚ) : ℚ × ℚ :=
  ((x - cam.cx) * cam.scale + w / 2, (y - cam.cy) * cam.scale + h / 2)

/-- screenToWorld: the algebraic inverse of worldToScreen. -/
def screenToWorld (cam : Camera) (w h sx sy : ℚ) : ℚ × ℚ :=
  ((sx - w / 2) / cam.scale + cam.cx, (sy - h / 2) / cam.scale + cam.cy)

/-- zoomAt(sx, sy, factor): rescale the camera scale (clamped into [0.25, 3.0])
while holding the world point under the screen point fixed, by shifting
(cx, cy) by the difference of the world point before and after the scale
change.  The clampSoftUntil timestamp write is pure bookkeeping for the soft
clamp and is not part of the camera transform. -/
def zoomAt (cam : Camera) (w h sx sy factor : ℚ) : Camera :=
  let before := screenToWorld cam w h sx sy
  let newScale := clamp (cam.scale * factor) 0.25 3.0
  let cam2 : Camera := { cam with scale := newScale }
  let after := screenToWorld cam2 w h sx sy
  { cx := cam.cx + (before.1 - after.1)
    cy := cam.cy + (before.2 - after.2)
    scale := newScale }

/-! ## Tap classification (IdeaMap.tsx, tapRef / onPointerDown / onPointerMove / onPointerUp)

The tap gate for a single pointer with no pinch: pointer-down records the
start position and time and sets active; each pointer-move deactivates the
tap when the displacement from the start exceeds 8 px; pointer-up classifies
the release as a tap when still active and the elapsed time does not exceed
450 ms.  The source guards the move gate on the misspelled Math.hypypot,
whose optional call yields undefined, so the branch actually evaluated is
Math.hypot(dx, dy) > 8; that comparison is embedded as the equivalent
decidable comparison 8^2 < dx^2 + dy^2 (both sides are nonnegative), and the
lemma moveCancels_iff_hypot below proves the two forms equivalent. -/

structure TapState where
  startX : ℚ
  startY : ℚ
  startT : ℚ
  active : Bool
deriving Repr, DecidableEq

/-- Pointer-down: record start position and time, tap is active. -/
def tapStart (x y t : ℚ) : TapState :=
  { startX := x, startY := y, startT := t, active := true }

/-- The displacement gate of onPointerMove: Math.hypot(dx, dy) > 8,
written over the squares. -/
def moveCancels (dx dy : ℚ) : Bool :=
  decide ((8 : ℚ) ^ 2 < dx ^ 2 + dy ^ 2)

/-- onPointerMove: deactivate the tap when the displacement from the start
position exceeds 8 px. -/
def tapMove (st : TapState) (x y : ℚ) : TapState :=
  if st.active && moveCancels (x - st.startX) (y - st.startY) then
    { st with active := false }
  else st

/-- onPointerUp: the release counts as a tap when the tap is still active and
the elapsed time does not exceed 450 ms (the code returns when elapsed > 450). -/
def tapUpIsTap (st : TapState) (t : ℚ) : Bool :=
  st.active && !(decide ((450 : ℚ) < t - st.startT))

/-- A full single-pointer down/move*/up run of the tap gate. -/
def classifyTap (x0 y0 t0 : ℚ) (moves : List (ℚ × ℚ)) (tUp : ℚ) : Bool :=
  tapUpIsTap (moves.foldl (fun st m => tapMove st m.1 m.2) (tapStart x0 y0 t0)) tUp

/-- On a tap, onPointerUp hit-tests the logo first (focus-to-origin), then the
tiles (like-toggle flow); a non-tap release takes no tap action. -/
inductive UpAction where
  | noTapAction : UpAction
  | focusLogo : UpAction
  | likeTile (id : String) : UpAction
deriving Repr, DecidableEq

/-- The release action of onPointerUp, given the classification outcome and
the two hit-test results. -/
def upAction (isTap : Bool) (hitLogo : Bool) (hitTile : Option String) : UpAction :=
  if isTap then
    if hitLogo then .focusLogo
    else match hitTile with
      | some id => .likeTile id
      | none => .noTapAction
  else .noTapAction

/-- The squared displacement gate agrees with the Math.hypot form of the source. -/
theorem moveCancels_iff_hypot (dx dy : ℚ) :
    moveCancels dx dy = true ↔ (8 : ℝ) < Real.sqrt ((dx : ℝ) ^ 2 + (dy : ℝ) ^ 2) := by
  rw [moveCancels, decide_eq_true_eq, Real.lt_sqrt (by norm_num : (0 : ℝ) ≤ 8)]
  constructor <;> intro h <;> exact_mod_cast h

/-! ## Per-tile like state: flip, busy guard, toast
(IdeaMap.tsx: flipRef / setFlipTarget, likeBusyRef, toastRef / TOAST_MS,
onPointerUp like path, draw back-face branch)

The per-id Maps become functions String → Option _, absence meaning the id
has never been touched.  The Set likeBusyRef becomes a Finset String. -/

/-- The flip entry of one tile: progress p and target, both in [0, 1]. -/
structure FlipSt where
  p : ℚ
  target : ℚ
deriving Repr, DecidableEq

/-- setFlipTarget(id, target): the existing entry keeps its progress and gets
the new target; a missing entry is created with p already at the target. -/
def setFlipTarget (m : String → Option FlipSt) (id : String) (target : ℚ) :
    String → Option FlipSt :=
  fun k =>
    if k = id then some { p := ((m id).getD { p := target, target := target }).p
                          target := target }
    else m k

/-- One pending toast of a tile back face. -/
structure Toast where
  untilMs : ℚ
  likes : ℤ
  likedKind : Bool
deriving Repr, DecidableEq

/-- TOAST_MS = 2200: the toast window in milliseconds. -/
def TOAST_MS : ℚ := 2200

/-- The combined per-tile like state touched by the onPointerUp like path. -/
structure LikeState where
  flip : String → Option FlipSt
  busy : Finset String
  toast : String → Option Toast

/-- The synchronous phase of the like tap (onPointerUp, after a tile hit):
the flip target is set optimistically from the liked set, then the per-tile
busy guard decides whether a network call is issued; when one is, the id is
added to the busy set.  The Bool of the result is true exactly when the
toggle network call is issued. -/
def likeTapPhase (st : LikeState) (likedSet : Finset String) (id : String) :
    LikeState × Bool :=
  let st1 : LikeState :=
    { st with flip := setFlipTarget st.flip id (if id ∈ likedSet then 0 else 1) }
  if id ∈ st1.busy then (st1, false)
  else ({ st1 with busy := insert id st1.busy }, true)

/-- The resolution phase of the like tap: the server result
{liked, likeCount} arriving at time now sets the authoritative flip target,
stores a toast lasting TOAST_MS, and (finally) releases the busy guard. -/
def likeResolvePhase (st : LikeState) (id : String) (liked : Bool)
    (likeCount : ℤ) (now : ℚ) : LikeState :=
  { flip := setFlipTarget st.flip id (if liked then 1 else 0)
    toast := fun k =>
      if k = id then some { untilMs := now + TOAST_MS, likes := likeCount, likedKind := liked }
      else st.toast k
    busy := st.busy.erase id }

/-- What the back face of a tile draws. -/
inductive BackContent where
  | toastLines (line1 line2 : String) : BackContent
  | plainMessage (msg : String) : BackContent
deriving Repr, DecidableEq

/-- The text lines of drawBackToast: a fixed acknowledgement line and the
numeric like count; the idea message is not drawn during the toast. -/
def backToastLines (likes : ℤ) (likedKind : Bool) : String × String :=
  (if likedKind then "それな！👍" else "いいねを解除しました", "合計: " ++ toString likes)

/-- The back-face branch of draw: while a toast is pending and now is before
its deadline, drawBackToast renders the toast lines; otherwise (expired or no
toast) drawBackOnlyMessage renders only the idea text, with no like count. -/
def backFaceContent (toast : Option Toast) (now : ℚ) (msg : String) : BackContent :=
  match toast with
  | some t =>
      if now < t.untilMs then .toastLines (backToastLines t.likes t.likedKind).1
                                           (backToastLines t.likes t.likedKind).2
      else .plainMessage msg
  | none => .plainMessage msg

/-! ## Liked-set flip restoration (IdeaMap.tsx, likedIds effect) -/

/-- The likedIds effect: every id newly present in the snapshot has its flip
entry set instantly to p = 1, target = 1; every id newly absent is set
instantly to p = 0, target = 0.  The two for-loops of the effect are the two
folds. -/
def likedFlipRestore (m : String → Option FlipSt) (prev next : List String) :
    String → Option FlipSt :=
  let m1 := next.foldl
    (fun acc id => if id ∈ prev then acc
                   else Function.update acc id (some { p := 1, target := 1 })) m
  prev.foldl
    (fun acc id => if id ∈ next then acc
                   else Function.update acc id (some { p := 0, target := 0 })) m1

/-! ## Size pulse target (IdeaMap.tsx, computeTargetMul / MAX_VISUAL_MUL) -/

/-- MAX_VISUAL_MUL = 1.22 in IdeaMap.tsx: the cap of the visual size
multiplier. -/
def MAX_VISUAL_MUL : ℝ := 1.22

/-- computeTargetMul: the target visual-size multiplier of a tile, a function
of its like count and of whether the current user likes it; Math.log2(x) is
Real.logb 2 x. -/
noncomputable def computeTargetMul (likes : ℕ) (likedByMe : Bool) : ℝ :=
  let byLikes := clamp (Real.logb 2 ((likes : ℝ) + 1) * 0.05) 0 0.16
  let byMe : ℝ := if likedByMe then 0.06 else 0
  clamp (1 + byLikes + byMe) 1 MAX_VISUAL_MUL

/-! ## Packer (src/layout.ts)

layoutIdeas places one node per idea on a hexagonal spiral, then runs
spatial-hash relaxation passes that push nodes out of the center obstacle and
apart from each other.  JS doubles become reals; Math.hypot(dx, dy) is
Real.sqrt (dx^2 + dy^2); Math.floor is Int.floor; the string-keyed grid Map
becomes a function from integer cell coordinates to index buckets (appended
in index order, as Map insertion order does). -/

/-- The Idea record consumed by layout.ts.  createdAt and likeCount are
carried but never read by the layout. -/
structure Idea where
  id : String
  message : String
  createdAt : Option ℤ := none
  likeCount : Option ℤ := none
deriving Repr, DecidableEq

/-- A layout node: position and layout radius in world space. -/
structure Node where
  id : String
  message : String
  x : ℝ
  y : ℝ
  r : ℝ

/-- The circular center obstacle of the layout options. -/
structure Obstacle where
  x : ℝ
  y : ℝ
  r : ℝ

/-- LayoutOptions; missing fields take the defaults gap = 8, density = 0.86,
iterationCount = 32, no obstacle. -/
structure LayoutOptions where
  gap : Option ℝ := none
  density : Option ℝ := none
  iterationCount : Option ℕ := none
  centerObstacle : Option Obstacle := none

/-- Math.hypot on two arguments. -/
noncomputable def hypot (dx dy : ℝ) : ℝ := Real.sqrt (dx ^ 2 + dy ^ 2)

/-- The default node a list read uses at an index; every read in the
relaxation is in range, so it is never observed. -/
def node0 : Node := { id := "", message := "", x := 0, y := 0, r := 0 }

/-- hexToPixel: axial hexagonal coordinates to Cartesian. -/
noncomputable def hexToPixel (q r : ℤ) (spacing : ℝ) : ℝ × ℝ :=
  (spacing * (Real.sqrt 3 * q + Real.sqrt 3 / 2 * r),
   spacing * (3 / 2 * r))

/-- The six axial walk directions of the spiral, in source order. -/
def spiralDirs : List (ℤ × ℤ) :=
  [(1, 0), (1, -1), (0, -1), (-1, 0), (-1, 1), (0, 1)]

/-- One side of a hexagonal ring: emit the current cell, step, k times;
also return the cell reached. -/
def walkSide (pos : ℤ × ℤ) (dir : ℤ × ℤ) : ℕ → List (ℤ × ℤ) × (ℤ × ℤ)
  | 0 => ([], pos)
  | n + 1 =>
      let rest := walkSide (pos.1 + dir.1, pos.2 + dir.2) dir n
      (pos :: rest.1, rest.2)

/-- Ring k of the spiral: start at (-k, k) and walk the six sides, k steps
each. -/
def ringCoords (k : ℕ) : List (ℤ × ℤ) :=
  (spiralDirs.foldl
    (fun (acc : List (ℤ × ℤ) × (ℤ × ℤ)) dir =>
      let s := walkSide acc.2 dir k
      (acc.1 ++ s.1, s.2))
    ([], (-(k : ℤ), (k : ℤ)))).1

/-- axialSpiral(n): origin first, then concentric rings until n cells exist.
The while loop of the source emits ring k completely before ring k+1 and
returns the moment the list reaches n cells; rings 1..n always hold at least
n further cells, so that early return is the take. -/
def axialSpiral (n : ℕ) : List (ℤ × ℤ) :=
  if n ≤ 1 then [(0, 0)]
  else ((0, 0) :: ((List.range n).map (fun k => ringCoords (k + 1))).flatten).take n

/-- The obstacle push of one relaxation step: when the node is within
r + obstacle.r + gap of the obstacle center it absorbs the whole correction,
along the connecting direction, or along the fallback direction (1, 0) when
the distance is below 1e-6. -/
noncomputable def obstaclePush (gap : ℝ) (o : Obstacle) (a : Node) : Node :=
  let dx0 := a.x - o.x
  let dy0 := a.y - o.y
  let d0 := hypot dx0 dy0
  let dx := if d0 < 1e-6 then 1 else dx0
  let dy := if d0 < 1e-6 then 0 else dy0
  let d := if d0 < 1e-6 then 1 else d0
  let minDistObs := a.r + o.r + gap
  if d < minDistObs then
    let push := minDistObs - d
    { a with x := a.x + dx / d * push, y := a.y + dy / d * push }
  else a

/-- The pair push of one relaxation step: when the two nodes are within
a.r + b.r + gap of each other, each absorbs half the overlap, along the
connecting unit vector, or along the fallback direction (1, 0) when the
distance is below 1e-6. -/
noncomputable def pairAdjust (gap : ℝ) (a b : Node) : Node × Node :=
  let dx0 := b.x - a.x
  let dy0 := b.y - a.y
  let d0 := hypot dx0 dy0
  let dx := if d0 < 1e-6 then 1 else dx0
  let dy := if d0 < 1e-6 then 0 else dy0
  let d := if d0 < 1e-6 then 1 else d0
  let minDist := a.r + b.r + gap
  if d < minDist then
    let overlap := minDist - d
    let nx := dx / d
    let ny := dy / d
    ({ a with x := a.x - nx * (overlap * 0.5), y := a.y - ny * (overlap * 0.5) },
     { b with x := b.x + nx * (overlap * 0.5), y := b.y + ny * (overlap * 0.5) })
  else (a, b)

/-- The grid cell of a world position. -/
noncomputable def cellOf (cellSize x y : ℝ) : ℤ × ℤ :=
  (⌊x / cellSize⌋, ⌊y / cellSize⌋)

/-- Bucket the node indices into the uniform grid, in index order. -/
noncomputable def buildGrid (cellSize : ℝ) (nodes : List Node) : ℤ × ℤ → List ℕ :=
  (List.range nodes.length).foldl
    (fun g i =>
      let n := nodes.getD i node0
      let key := cellOf cellSize n.x n.y
      fun k => if k = key then g k ++ [i] else g k)
    (fun _ => [])

/-- The nine neighbor cell offsets (ox, oy), in source loop order
(oy outer from -1 to 1, ox inner from -1 to 1). -/
def neighborOffsets : List (ℤ × ℤ) :=
  [(-1, -1), (0, -1), (1, -1), (-1, 0), (0, 0), (1, 0), (-1, 1), (0, 1), (1, 1)]

/-- One relaxation pass (one iteration of the outer for loop): bucket the
start-of-pass positions, then for each node in index order apply the obstacle
push and resolve its pairs against every later-indexed node of the nine
neighboring buckets, Gauss-Seidel style (every read sees all earlier writes
of the same pass). -/
noncomputable def relaxPass (obs : Option Obstacle) (gap cellSize : ℝ)
    (nodes : List Node) : List Node :=
  let grid := buildGrid cellSize nodes
  (List.range nodes.length).foldl
    (fun ns i =>
      let a0 := ns.getD i node0
      let a1 := match obs with
        | some o => obstaclePush gap o a0
        | none => a0
      let ns1 := ns.set i a1
      let key := cellOf cellSize a1.x a1.y
      neighborOffsets.foldl
        (fun ns2 off =>
          (grid (key.1 + off.1, key.2 + off.2)).foldl
            (fun ns3 j =>
              if j ≤ i then ns3
              else
                let ab := pairAdjust gap (ns3.getD i node0) (ns3.getD j node0)
                (ns3.set i ab.1).set j ab.2)
            ns2)
        ns1)
    nodes

/-- The relaxation loop: iterationCount passes. -/
noncomputable def relaxLoop (obs : Option Obstacle) (gap cellSize : ℝ) :
    ℕ → List Node → List Node
  | 0, ns => ns
  | k + 1, ns => relaxLoop obs gap cellSize k (relaxPass obs gap cellSize ns)

/-- The layout-side maximum visual multiplier constant (1.22), reserved into
every layout radius so the visual pulse has room. -/
def layoutMaxVisualMul : ℝ := 1.22

/-- The initial node list of layoutIdeas: one node per idea, positioned on
the hexagonal spiral, with radius
clamp(baseR * textScale * layoutMaxVisualMul, 24, maxR) where textScale grows
one step of 0.06 per 7 characters of the message, capped at 1.28. -/
noncomputable def initialNodes (ideas : List Idea) (opts : LayoutOptions) : List Node :=
  let baseR : ℝ := 32
  let gap := opts.gap.getD 8
  let density := opts.density.getD 0.86
  let maxR := baseR * 1.35 * layoutMaxVisualMul
  let spacing := (2 * maxR + gap) / Real.sqrt 3 * density
  let coords := axialSpiral ideas.length
  ideas.enum.map (fun p =>
    let c := coords.getD p.1 (0, 0)
    let pos := hexToPixel c.1 c.2 spacing
    let msgLen := p.2.message.length
    let textScale := clamp ((1 : ℝ) + ((msgLen / 7 : ℕ) : ℝ) * 0.06) 1 1.28
    let r := clamp (baseR * textScale * layoutMaxVisualMul) 24 maxR
    { id := p.2.id, message := p.2.message, x := pos.1, y := pos.2, r := r })

/-- layoutIdeas: the full Packer, initial spiral placement followed by
iterationCount relaxation passes over the grid of cell size
(2 * maxR + gap) * 1.12. -/
noncomputable def layoutIdeas (ideas : List Idea) (opts : LayoutOptions) : List Node :=
  let baseR : ℝ := 32
  let gap := opts.gap.getD 8
  let iterationCount := opts.iterationCount.getD 32
  let maxR := baseR * 1.35 * layoutMaxVisualMul
  let cellSize := (2 * maxR + gap) * 1.12
  relaxLoop opts.centerObstacle gap cellSize iterationCount (initialNodes ideas opts)

/-- The no-overlap property of a produced node list, with tolerance eps: all
pairs are separated by the sum of their radii plus the gap, and every node
clears the obstacle when one is configured. -/
def separatedNodes (gap : ℝ) (obs : Option Obstacle) (eps : ℝ)
    (ns : List Node) : Prop :=
  List.Pairwise (fun a b => a.r + b.r + gap - eps ≤ hypot (b.x - a.x) (b.y - a.y)) ns ∧
  ∀ o ∈ obs, ∀ n ∈ ns, n.r + o.r + gap - eps ≤ hypot (n.x - o.x) (n.y - o.y)

/-- Three ideas used to probe the relaxation: one-character ids, empty
messages (text scale 1, layout radius 39.04). -/
def probeIdeas : List Idea :=
  [{ id := "a", message := "" }, { id := "b", message := "" }, { id := "c", message := "" }]

/-- A legal options record with iterationCount 16: density 0 (all spiral
cells collapse onto the origin), a gap of 1e8 and a small obstacle just left
of the origin. -/
def probeOpts : LayoutOptions :=
  { gap := some 100000000, density := some 0, iterationCount := some 16,
    centerObstacle := some { x := -10, y := 0, r := 50 } }

/-- Two ideas for the witness of the amended no-overlap claim. -/
def pairIdeas : List Idea :=
  [{ id := "a", message := "" }, { id := "b", message := "" }]

/-- Options with density 2 and iterationCount 16: the doubled spiral spacing
separates the two cells from the start. -/
def pairOpts : LayoutOptions := { density := some 2, iterationCount := some 16 }

/-!
# Theorems
-/

section Theorems

/-- Helper: the fold of tapMove never changes the recorded start fields. -/
theorem tapMove_foldl_start (moves : List (ℚ × ℚ)) (st : TapState) :
    (moves.foldl (fun s m => tapMove s m.1 m.2) st).startX = st.startX ∧
    (moves.foldl (fun s m => tapMove s m.1 m.2) st).startY = st.startY ∧
    (moves.foldl (fun s m => tapMove s m.1 m.2) st).startT = st.startT := by
  induction moves generalizing st with
  | nil => exact ⟨rfl, rfl, rfl⟩
  | cons m ms ih =>
    simp only [List.foldl_cons]
    have h := ih (tapMove st m.1 m.2)
    rw [tapMove]
    split <;> simpa using ih _

/-- Helper: the tap stays active through the fold of tapMove exactly when it
was active and no move crossed the 8 px displacement gate. -/
theorem tapMove_foldl_active (moves : List (ℚ × ℚ)) (st : TapState) :
    (moves.foldl (fun s m => tapMove s m.1 m.2) st).active =
      (st.active && moves.all (fun m => !moveCancels (m.1 - st.startX) (m.2 - st.startY))) := by
  induction moves generalizing st with
  | nil => simp
  | cons m ms ih =>
    simp only [List.foldl_cons, List.all_cons]
    rw [ih]
    by_cases ha : st.active
    · by_cases hc : moveCancels (m.1 - st.startX) (m.2 - st.startY)
      · simp [tapMove, ha, hc]
      · simp [tapMove, ha, hc]
    · simp [tapMove, ha]

/-- C3.  Camera round-trip: for every screen point, camera state with scale
in [0.25, 3.0] and viewport size, worldToScreen after screenToWorld returns
the screen point (exactly, in the exact-arithmetic model; the floating-point
tolerance of the claim is 0 here). -/
theorem camera_round_trip (cam : Camera) (w h sx sy : ℚ)
    (hlo : (0.25 : ℚ) ≤ cam.scale) (hhi : cam.scale ≤ 3.0) :
    worldToScreen cam w h (screenToWorld cam w h sx sy).1
      (screenToWorld cam w h sx sy).2 = (sx, sy) := by
  have hs : cam.scale ≠ 0 := by intro h0; rw [h0] at hlo; norm_num at hlo
  simp only [worldToScreen, screenToWorld, Prod.mk.injEq]
  constructor <;> (field_simp; ring)

/-- C3 witness: a concrete round trip at scale 2. -/
theorem camera_round_trip_witness :
    (0.25 : ℚ) ≤ (2 : ℚ) ∧ (2 : ℚ) ≤ 3.0 ∧
    worldToScreen { cx := 10, cy := -5, scale := 2 } 800 600
      (screenToWorld { cx := 10, cy := -5, scale := 2 } 800 600 123 45).1
      (screenToWorld { cx := 10, cy := -5, scale := 2 } 800 600 123 45).2 = (123, 45) :=
  ⟨by norm_num, by norm_num,
    camera_round_trip { cx := 10, cy := -5, scale := 2 } 800 600 123 45
      (by norm_num) (by norm_num)⟩

/-- C4.  Zoom pin invariant: after zoomAt(sx, sy, f), screenToWorld(sx, sy)
is unchanged, for every factor, including when the new scale is clamped into
[0.25, 3.0]. -/
theorem zoom_pin_invariant (cam : Camera) (w h sx sy f : ℚ)
    (hlo : (0.25 : ℚ) ≤ cam.scale) (hhi : cam.scale ≤ 3.0) :
    screenToWorld (zoomAt cam w h sx sy f) w h sx sy =
      screenToWorld cam w h sx sy := by
  simp only [zoomAt, screenToWorld, clamp, Prod.mk.injEq]
  constructor <;> ring

/-- C4 witness: zooming by the factor 100 from scale 1 (the new scale is
clamped to 3.0) holds the world point under the cursor fixed. -/
theorem zoom_pin_invariant_witness :
    (0.25 : ℚ) ≤ (1 : ℚ) ∧ (1 : ℚ) ≤ 3.0 ∧
    screenToWorld (zoomAt { cx := 7, cy := 8, scale := 1 } 800 600 200 100 100) 800 600 200 100 =
      screenToWorld { cx := 7, cy := 8, scale := 1 } 800 600 200 100 :=
  ⟨by norm_num, by norm_num,
    zoom_pin_invariant { cx := 7, cy := 8, scale := 1 } 800 600 200 100 100
      (by norm_num) (by norm_num)⟩

/-- Helper: the closed form of classifyTap. -/
theorem classifyTap_eq (x0 y0 t0 : ℚ) (moves : List (ℚ × ℚ)) (tUp : ℚ) :
    classifyTap x0 y0 t0 moves tUp =
      (moves.all (fun m => !moveCancels (m.1 - x0) (m.2 - y0)) &&
        !(decide ((450 : ℚ) < tUp - t0))) := by
  obtain ⟨hX, hY, hT⟩ := tapMove_foldl_start moves (tapStart x0 y0 t0)
  rw [classifyTap, tapUpIsTap, hT, tapMove_foldl_active]
  simp [tapStart]

/-- C5 (amended).  Tap classification for a single pointer with no pinch: the
release is classified as a tap (logo hit-test first, then tile hit-test) if
and only if every move stayed within 8 px of the start (inclusive) and the
elapsed time is at most 450 ms (inclusive); otherwise no tap action is taken
on release.  The source gates are the strict comparisons
Math.hypot(dx, dy) > 8 and elapsed > 450, so the boundary cases displacement
= 8 px and elapsed = 450 ms still classify as taps, which is where this
differs from the claim as stated. -/
theorem tap_classification (x0 y0 t0 : ℚ) (moves : List (ℚ × ℚ)) (tUp : ℚ)
    (hitLogo : Bool) (hitTile : Option String) :
    (classifyTap x0 y0 t0 moves tUp = true ↔
      ((∀ m ∈ moves,
          Real.sqrt (((m.1 - x0 : ℚ) : ℝ) ^ 2 + ((m.2 - y0 : ℚ) : ℝ) ^ 2) ≤ 8) ∧
        tUp - t0 ≤ 450)) ∧
    (classifyTap x0 y0 t0 moves tUp = false →
      upAction (classifyTap x0 y0 t0 moves tUp) hitLogo hitTile = .noTapAction) := by
  constructor
  · rw [classifyTap_eq, Bool.and_eq_true, List.all_eq_true]
    constructor
    · rintro ⟨hall, htime⟩
      refine ⟨fun m hm => ?_, ?_⟩
      · have := hall m hm
        rw [Bool.not_eq_true'] at this
        have hnot : ¬ (moveCancels (m.1 - x0) (m.2 - y0) = true) := by simp [this]
        rw [moveCancels_iff_hypot] at hnot
        exact not_lt.mp hnot
      · rw [Bool.not_eq_true', decide_eq_false_iff_not, not_lt] at htime
        exact htime
    · rintro ⟨hall, htime⟩
      refine ⟨fun m hm => ?_, ?_⟩
      · rw [Bool.not_eq_true', ← Bool.not_eq_true, moveCancels_iff_hypot]
        exact not_lt.mpr (hall m hm)
      · rw [Bool.not_eq_true', decide_eq_false_iff_not]
        exact not_lt.mpr htime
  · intro hfalse
    rw [hfalse]
    rfl

/-- C5 counterexample: a pointer that moves exactly 8 px from its start (a
displacement of 8 px, hence at least the 8 px threshold of the claim) and
releases immediately is still classified as a tap and still triggers the tile
action, contradicting the claim that displacement at or above 8 px takes no
tap action. -/
theorem tap_boundary_eight_px_still_taps :
    classifyTap 0 0 0 [(8, 0)] 0 = true ∧
    (8 : ℝ) ≤ Real.sqrt ((((8 : ℚ) - 0 : ℚ) : ℝ) ^ 2 + (((0 : ℚ) - 0 : ℚ) : ℝ) ^ 2) ∧
    upAction (classifyTap 0 0 0 [(8, 0)] 0) false (some "tile") = .likeTile "tile" := by
  have h1 : classifyTap 0 0 0 [(8, 0)] 0 = true := by
    norm_num [classifyTap_eq, moveCancels]
  refine ⟨h1, ?_, by rw [h1]; rfl⟩
  have : ((((8 : ℚ) - 0 : ℚ) : ℝ) ^ 2 + (((0 : ℚ) - 0 : ℚ) : ℝ) ^ 2) = 8 ^ 2 := by
    norm_num
  rw [this, Real.sqrt_sq (by norm_num)]

/-- C5 witness: a 100 px drag is not a tap, and its release takes no tap
action even over the logo. -/
theorem tap_classification_witness :
    upAction (classifyTap 0 0 0 [(100, 0)] 0) true none = .noTapAction :=
  (tap_classification 0 0 0 [(100, 0)] 0 true none).2
    (by norm_num [classifyTap_eq, moveCancels])

/-- C6.  Toggle re-entrancy guard: while a toggle for an id is outstanding
(the id is in the busy set), a second tap on the same tile issues no second
network call and leaves the busy set unchanged; the resolution phase erases
the id from the busy set, so a tap after the resolution issues a call
again. -/
theorem like_toggle_guard (st : LikeState) (likedSet : Finset String)
    (id : String) (liked : Bool) (likeCount : ℤ) (now : ℚ) :
    (id ∈ st.busy →
      (likeTapPhase st likedSet id).2 = false ∧
      (likeTapPhase st likedSet id).1.busy = st.busy) ∧
    (likeResolvePhase st id liked likeCount now).busy = st.busy.erase id ∧
    (likeTapPhase (likeResolvePhase st id liked likeCount now) likedSet id).2 = true := by
  refine ⟨fun hbusy => ?_, rfl, ?_⟩
  · rw [likeTapPhase]
    simp [hbusy]
  · rw [likeTapPhase, likeResolvePhase]
    simp

/-- C6 witness: with the toggle of tile a outstanding, a second tap on a
issues no call; after the resolution a tap issues one. -/
theorem like_toggle_guard_witness :
    ("a" ∈ ({"a"} : Finset String)) ∧
    ((likeTapPhase ⟨fun _ => none, {"a"}, fun _ => none⟩ ∅ "a").2 = false ∧
      (likeTapPhase ⟨fun _ => none, {"a"}, fun _ => none⟩ ∅ "a").1.busy = {"a"}) ∧
    (likeTapPhase (likeResolvePhase ⟨fun _ => none, {"a"}, fun _ => none⟩ "a" true 7 0) ∅ "a").2 = true :=
  ⟨by decide,
    (like_toggle_guard ⟨fun _ => none, {"a"}, fun _ => none⟩ ∅ "a" true 7 0).1 (by decide),
    (like_toggle_guard ⟨fun _ => none, {"a"}, fun _ => none⟩ ∅ "a" true 7 0).2.2⟩

/-- C7 (amended).  Like-toast flow on an unliked tile: the synchronous tap
phase sets the flip target to 1 before any network call is issued; when the
call resolves with liked = true and likeCount = 7 at time t, the toast stored
for the tile lasts exactly TOAST_MS = 2200 ms (the approximately-2-second
window of the claim), during which the back face draws the fixed
acknowledgement line and the count line showing 7 — not the idea message —
and after which the back face draws only the plain idea text with no like
count. -/
theorem like_toast_flow (st : LikeState) (likedSet : Finset String)
    (id msg : String) (t now : ℚ) (hunliked : id ∉ likedSet) :
    (((likeTapPhase st likedSet id).1.flip id).map FlipSt.target = some 1) ∧
    ((likeResolvePhase (likeTapPhase st likedSet id).1 id true 7 t).toast id =
      some { untilMs := t + TOAST_MS, likes := 7, likedKind := true }) ∧
    (((likeResolvePhase (likeTapPhase st likedSet id).1 id true 7 t).flip id).map
        FlipSt.target = some 1) ∧
    (now < t + TOAST_MS →
      backFaceContent
        ((likeResolvePhase (likeTapPhase st likedSet id).1 id true 7 t).toast id)
        now msg = .toastLines "それな！👍" "合計: 7") ∧
    (t + TOAST_MS ≤ now →
      backFaceContent
        ((likeResolvePhase (likeTapPhase st likedSet id).1 id true 7 t).toast id)
        now msg = .plainMessage msg) ∧
    TOAST_MS = 2200 := by
  have htap : (likeTapPhase st likedSet id).1.flip id =
      some { p := ((st.flip id).getD { p := 1, target := 1 }).p, target := 1 } := by
    by_cases hb : id ∈ st.busy <;> simp [likeTapPhase, hb, setFlipTarget, hunliked]
  have htoast : (likeResolvePhase (likeTapPhase st likedSet id).1 id true 7 t).toast id =
      some { untilMs := t + TOAST_MS, likes := 7, likedKind := true } := by
    rw [likeResolvePhase]
    simp
  refine ⟨by rw [htap]; rfl, htoast, ?_, ?_, ?_, rfl⟩
  · rw [likeResolvePhase]
    simp [setFlipTarget]
  · intro hlt
    rw [htoast]
    simp only [backFaceContent]
    rw [if_pos hlt]
    rfl
  · intro hge
    rw [htoast]
    simp only [backFaceContent]
    rw [if_neg (not_lt.mpr hge)]

/-- C7 counterexample: during the toast window the back face draws the fixed
acknowledgement line and the count line, and neither drawn line contains the
idea message (here hello) as a substring, so the toast does not contain the
message as the claim states. -/
theorem toast_does_not_show_message :
    backFaceContent (some { untilMs := 2200, likes := 7, likedKind := true }) 0 "hello" =
      .toastLines "それな！👍" "合計: 7" ∧
    ¬ ("hello".data <:+: "それな！👍".data) ∧
    ¬ ("hello".data <:+: "合計: 7".data) := by
  refine ⟨?_, by decide, by decide⟩
  simp only [backFaceContent]
  rw [if_pos (by norm_num : (0 : ℚ) < 2200)]
  rfl

/-- C7 witness: the flow at concrete inputs — tile x, empty prior state,
resolution at t = 1000, the toast branch at now = 2000 (inside the window)
and the plain branch at now = 3500 (outside). -/
theorem like_toast_flow_witness :
    ("x" ∉ (∅ : Finset String)) ∧
    ((2000 : ℚ) < 1000 + TOAST_MS) ∧ ((1000 : ℚ) + TOAST_MS ≤ 3500) ∧
    (((likeTapPhase ⟨fun _ => none, ∅, fun _ => none⟩ ∅ "x").1.flip "x").map
        FlipSt.target = some 1) ∧
    (backFaceContent
        ((likeResolvePhase (likeTapPhase ⟨fun _ => none, ∅, fun _ => none⟩ ∅ "x").1
            "x" true 7 1000).toast "x") 2000 "m" = .toastLines "それな！👍" "合計: 7") ∧
    (backFaceContent
        ((likeResolvePhase (likeTapPhase ⟨fun _ => none, ∅, fun _ => none⟩ ∅ "x").1
            "x" true 7 1000).toast "x") 3500 "m" = .plainMessage "m") := by
  have h := like_toast_flow ⟨fun _ => none, ∅, fun _ => none⟩ ∅ "x" "m" 1000 2000
    (by decide)
  have h2 := like_toast_flow ⟨fun _ => none, ∅, fun _ => none⟩ ∅ "x" "m" 1000 3500
    (by decide)
  exact ⟨by decide, by norm_num [TOAST_MS], by norm_num [TOAST_MS],
    h.1, h.2.2.2.1 (by norm_num [TOAST_MS]), h2.2.2.2.2.1 (by norm_num [TOAST_MS])⟩

/-- Helper: evaluating a fold of guarded Function.update writes of one
constant value: the result at an id is the value when the id is in the list
and passes the guard, and the original entry otherwise. -/
theorem foldl_guarded_update (l q : List String) (v : Option FlipSt)
    (m : String → Option FlipSt) (id : String) :
    (l.foldl (fun acc x => if x ∈ q then acc else Function.update acc x v) m) id
      = if id ∈ l ∧ id ∉ q then v else m id := by
  induction l generalizing m with
  | nil => simp
  | cons a as ih =>
    simp only [List.foldl_cons]
    rw [ih]
    by_cases has : id ∈ as ∧ id ∉ q
    · simp [has, List.mem_cons, has.1]
    · rw [if_neg has]
      by_cases haq : a ∈ q
      · rw [if_pos haq]
        rw [if_neg]
        rintro ⟨hmem, hnq⟩
        rcases List.mem_cons.mp hmem with h | h
        · exact hnq (h ▸ haq)
        · exact has ⟨h, hnq⟩
      · rw [if_neg haq]
        by_cases hia : id = a
        · subst hia
          simp [Function.update_same, haq]
        · rw [Function.update_noteq hia]
          rw [if_neg]
          rintro ⟨hmem, hnq⟩
          rcases List.mem_cons.mp hmem with h | h
          · exact hia h
          · exact has ⟨h, hnq⟩

/-- C10.  Liked-set flip restoration: when the likedIds snapshot changes,
every id newly present gets its flip entry set instantly to progress 1 and
target 1, and every id newly absent instantly to progress 0 and target 0 —
the progress is written directly, so there is no animated transition and
already-liked tiles render their back face immediately. -/
theorem liked_flip_restore (m : String → Option FlipSt) (prev next : List String)
    (id : String) :
    (id ∈ next → id ∉ prev →
      likedFlipRestore m prev next id = some { p := 1, target := 1 }) ∧
    (id ∈ prev → id ∉ next →
      likedFlipRestore m prev next id = some { p := 0, target := 0 }) := by
  constructor
  · intro hn hp
    simp only [likedFlipRestore]
    rw [foldl_guarded_update, if_neg (by rintro ⟨h1, h2⟩; exact h2 hn)]
    rw [foldl_guarded_update, if_pos ⟨hn, hp⟩]
  · intro hp hn
    simp only [likedFlipRestore]
    rw [foldl_guarded_update, if_pos ⟨hp, hn⟩]

/-- C10 witness: from prev = [a] to next = [b]: b flips instantly to (1, 1)
and a instantly to (0, 0). -/
theorem liked_flip_restore_witness :
    ("b" ∈ ["b"] ∧ "b" ∉ ["a"] ∧
      likedFlipRestore (fun _ => none) ["a"] ["b"] "b" = some { p := 1, target := 1 }) ∧
    ("a" ∈ ["a"] ∧ "a" ∉ ["b"] ∧
      likedFlipRestore (fun _ => none) ["a"] ["b"] "a" = some { p := 0, target := 0 }) :=
  ⟨⟨by decide, by decide,
      (liked_flip_restore (fun _ => none) ["a"] ["b"] "b").1 (by decide) (by decide)⟩,
    ⟨by decide, by decide,
      (liked_flip_restore (fun _ => none) ["a"] ["b"] "a").2 (by decide) (by decide)⟩⟩

/-- Helper: Math.log2 of 8 is 3. -/
theorem logb_two_eight : Real.logb 2 8 = 3 := by
  rw [show ((8 : ℝ)) = 2 ^ (3 : ℕ) by norm_num, Real.logb_pow,
    Real.logb_self_eq_one (by norm_num)]
  norm_num

/-- Helper: the size-pulse target for 7 likes, liked by the current user. -/
theorem computeTargetMul_seven : computeTargetMul 7 true = 1.21 := by
  rw [computeTargetMul]
  simp only
  rw [show ((7 : ℕ) : ℝ) + 1 = 8 by norm_num, logb_two_eight]
  rw [clamp, clamp]
  norm_num [MAX_VISUAL_MUL, min_def, max_def]

/-- C8 (code evaluation at the failing input).  The multiplier cap
MAX_VISUAL_MUL of IdeaMap.tsx equals the inflation factor layout.ts reserves
in every layout radius, and the pulse target is clamped into
[1, MAX_VISUAL_MUL]; but draw computes the visual radius as n.r * mul where
n.r is the already-inflated layout radius, so at the failing input (a tile
with likeCount 7, liked by the current user, layout radius 39.04) the
visually pulsed radius 39.04 * 1.21 exceeds the layout radius — the
double-applied inflation that layout.ts's own comment says cannot happen. -/
theorem visual_pulse_exceeds_layout_radius :
    ((layoutIdeas [{ id := "a", message := "hello" }]
        { iterationCount := some 0 }).map Node.r = [39.04]) ∧
    computeTargetMul 7 true = 1.21 ∧
    MAX_VISUAL_MUL = layoutMaxVisualMul ∧
    (∀ r ∈ (layoutIdeas [{ id := "a", message := "hello" }]
        { iterationCount := some 0 }).map Node.r,
      r < r * computeTargetMul 7 true) := by
  have heval : (layoutIdeas [{ id := "a", message := "hello" }]
      { iterationCount := some 0 }).map Node.r = [39.04] := by
    rw [layoutIdeas]
    simp only [Option.getD_some, Option.getD_none]
    rw [relaxLoop, initialNodes]
    simp only [List.enum, List.enumFrom, List.map_cons, List.map_nil,
      List.length_cons, List.length_nil, axialSpiral]
    norm_num [hexToPixel, clamp, layoutMaxVisualMul, min_def, max_def]
    rw [show ("hello".length / 7 : ℕ) = 0 by rfl]
    norm_num
  refine ⟨heval, computeTargetMul_seven, rfl, ?_⟩
  rw [heval]
  intro r hr
  rw [List.mem_singleton] at hr
  rw [hr, computeTargetMul_seven]
  norm_num

/-- Helper: Math.hypot of a horizontal displacement. -/
theorem hypot_x_zero (dx : ℝ) : hypot dx 0 = |dx| := by
  rw [hypot]
  norm_num [Real.sqrt_sq_eq_abs]

/-- Helper: evaluating a grid cell from rational bounds on the quotients. -/
theorem cellOf_eval (cs x y : ℝ) (m n : ℤ) (h1 : (m : ℝ) ≤ x / cs)
    (h2 : x / cs < m + 1) (h3 : (n : ℝ) ≤ y / cs) (h4 : y / cs < n + 1) :
    cellOf cs x y = (m, n) := by
  rw [cellOf, Prod.mk.injEq]
  exact ⟨Int.floor_eq_iff.mpr ⟨h1, by exact_mod_cast h2⟩,
    Int.floor_eq_iff.mpr ⟨h3, by exact_mod_cast h4⟩⟩

/-- Helper: one unfolding of the relaxation loop. -/
theorem relaxLoop_succ (obs : Option Obstacle) (gap cellSize : ℝ) (k : ℕ)
    (ns : List Node) :
    relaxLoop obs gap cellSize (k + 1) ns =
      relaxLoop obs gap cellSize k (relaxPass obs gap cellSize ns) := rfl

/-- Helper: a relaxation pass on an empty node list is the empty list. -/
theorem relaxPass_nil (obs : Option Obstacle) (gap cellSize : ℝ) :
    relaxPass obs gap cellSize [] = [] := by
  rw [relaxPass]
  simp

/-- Helper: the relaxation loop on an empty node list is the empty list. -/
theorem relaxLoop_nil (obs : Option Obstacle) (gap cellSize : ℝ) (k : ℕ) :
    relaxLoop obs gap cellSize k [] = [] := by
  induction k with
  | zero => rfl
  | succ n ih => rw [relaxLoop, relaxPass_nil]; exact ih

/-- C9.  Layout totality on degenerate inputs: layoutIdeas of the empty idea
list is the empty list, for every options record; when a node coincides with
the obstacle center (distance below 1e-6) the obstacle push moves it along
the fallback unit direction (1, 0); when two nodes coincide the pair push
separates them along the fallback direction (1, 0); and the divisor used by
both pushes is always at least 1e-6, so no division by a near-zero distance
ever happens.  In the embedding every definition is total, so layoutIdeas
never throws. -/
theorem layout_degenerate_cases :
    (∀ opts : LayoutOptions, layoutIdeas [] opts = []) ∧
    (∀ (gap : ℝ) (o : Obstacle) (a : Node), hypot (a.x - o.x) (a.y - o.y) < 1e-6 →
      obstaclePush gap o a =
        if 1 < a.r + o.r + gap then { a with x := a.x + (a.r + o.r + gap - 1) }
        else a) ∧
    (∀ (gap : ℝ) (a b : Node), hypot (b.x - a.x) (b.y - a.y) < 1e-6 →
      pairAdjust gap a b =
        if 1 < a.r + b.r + gap then
          ({ a with x := a.x - (a.r + b.r + gap - 1) * 0.5 },
           { b with x := b.x + (a.r + b.r + gap - 1) * 0.5 })
        else (a, b)) ∧
    (∀ dx dy : ℝ, (1e-6 : ℝ) ≤ if hypot dx dy < 1e-6 then 1 else hypot dx dy) := by
  refine ⟨?_, ?_, ?_, ?_⟩
  · intro opts
    rw [layoutIdeas]
    simp only [initialNodes, List.enum, List.enumFrom, List.map_nil]
    exact relaxLoop_nil _ _ _ _
  · intro gap o a hd0
    rw [obstaclePush]
    simp only [if_pos hd0]
    split_ifs with h
    · simp [Node.mk.injEq]
    · rfl
  · intro gap a b hd0
    rw [pairAdjust]
    simp only [if_pos hd0]
    split_ifs with h
    · simp [Node.mk.injEq, Prod.mk.injEq]
    · rfl
  · intro dx dy
    split_ifs with h
    · norm_num
    · exact not_lt.mp h

/-- C9 witness: a node placed exactly on the obstacle center is pushed along
(1, 0) to x = r + obstacleR + gap - 1, and two coincident nodes are pushed
apart along (1, 0) by half the fallback overlap each. -/
theorem layout_degenerate_cases_witness :
    hypot ((0 : ℝ) - 0) (0 - 0) < 1e-6 ∧
    obstaclePush 8 { x := 0, y := 0, r := 10 }
        { id := "a", message := "m", x := 0, y := 0, r := 5 } =
      { id := "a", message := "m", x := 22, y := 0, r := 5 } ∧
    pairAdjust 8 { id := "a", message := "", x := 0, y := 0, r := 5 }
        { id := "b", message := "", x := 0, y := 0, r := 6 } =
      ({ id := "a", message := "", x := -9, y := 0, r := 5 },
       { id := "b", message := "", x := 9, y := 0, r := 6 }) := by
  have hz : hypot ((0 : ℝ) - 0) (0 - 0) < 1e-6 := by
    rw [hypot]
    norm_num
  refine ⟨hz, ?_, ?_⟩
  · have h := layout_degenerate_cases.2.1 8 { x := 0, y := 0, r := 10 }
      { id := "a", message := "m", x := 0, y := 0, r := 5 } hz
    rw [h, if_pos (by norm_num)]
    norm_num
  · have h := layout_degenerate_cases.2.2.1 8
      { id := "a", message := "", x := 0, y := 0, r := 5 }
      { id := "b", message := "", x := 0, y := 0, r := 6 } hz
    rw [h, if_pos (by norm_num)]
    norm_num

/-- Helper: mapping a function that reads only the index, id and message over
two enumerations agrees whenever the (id, message) sequences agree. -/
theorem enumFrom_map_eq_of_sig_eq (F : ℕ × Idea → Node)
    (hF : ∀ (n : ℕ) (a b : Idea), a.id = b.id → a.message = b.message →
      F (n, a) = F (n, b)) :
    ∀ (l₁ l₂ : List Idea) (n : ℕ),
      l₁.map (fun i => (i.id, i.message)) = l₂.map (fun i => (i.id, i.message)) →
      (l₁.enumFrom n).map F = (l₂.enumFrom n).map F := by
  intro l₁
  induction l₁ with
  | nil =>
    intro l₂ n h
    cases l₂ with
    | nil => rfl
    | cons b bs => simp at h
  | cons a as ih =>
    intro l₂ n h
    cases l₂ with
    | nil => simp at h
    | cons b bs =>
      simp only [List.map_cons, List.cons.injEq, Prod.mk.injEq] at h
      simp only [List.enumFrom, List.map_cons, List.cons.injEq]
      exact ⟨hF n a b h.1.1 h.1.2, ih bs (n + 1) h.2⟩

/-- Helper: initialNodes reads only the length and the (id, message)
sequence of the idea list. -/
theorem initialNodes_congr (ideas₁ ideas₂ : List Idea) (opts : LayoutOptions)
    (h : ideas₁.map (fun i => (i.id, i.message)) =
      ideas₂.map (fun i => (i.id, i.message))) :
    initialNodes ideas₁ opts = initialNodes ideas₂ opts := by
  have hlen : ideas₁.length = ideas₂.length := by
    have h2 := congrArg List.length h
    simpa using h2
  rw [initialNodes, initialNodes, hlen]
  simp only [List.enum]
  exact enumFrom_map_eq_of_sig_eq _
    (fun n a b hid hmsg => by simp only [hid, hmsg]) ideas₁ ideas₂ 0 h

/-- Helper:  layoutIdeas reads the idea list only through initialNodes
(which reads only the (id, message) sequence); the relaxation depends only on
the produced nodes and the options. -/
theorem layoutIdeas_congr (ideas₁ ideas₂ : List Idea) (opts : LayoutOptions)
    (h : ideas₁.map (fun i => (i.id, i.message)) =
      ideas₂.map (fun i => (i.id, i.message))) :
    layoutIdeas ideas₁ opts = layoutIdeas ideas₂ opts := by
  rw [layoutIdeas, layoutIdeas, initialNodes_congr ideas₁ ideas₂ opts h]

/-- C2.  Content stability: layoutIdeas is insensitive to likeCount and
createdAt — two idea lists with identical (id, message) sequences produce
node lists with identical positions and radii, for identical options.
Determinism is the instance ideas₁ = ideas₂ of this statement: the layout is
a pure function, so two invocations on the same input are identical. -/
theorem layout_content_stability (ideas₁ ideas₂ : List Idea) (opts : LayoutOptions)
    (h : ideas₁.map (fun i => (i.id, i.message)) =
      ideas₂.map (fun i => (i.id, i.message))) :
    (layoutIdeas ideas₁ opts).map (fun n => (n.x, n.y, n.r)) =
      (layoutIdeas ideas₂ opts).map (fun n => (n.x, n.y, n.r)) := by
  rw [layoutIdeas_congr ideas₁ ideas₂ opts h]

/-- C2 witness: two lists with the same (id, message) sequences but different
likeCount and createdAt lay out identically. -/
theorem layout_content_stability_witness :
    ([{ id := "a", message := "hi", createdAt := none, likeCount := some 3 },
      { id := "b", message := "yo", createdAt := none, likeCount := some 0 }] : List Idea).map
        (fun i => (i.id, i.message)) =
      ([{ id := "a", message := "hi", createdAt := some 9, likeCount := some 99 },
        { id := "b", message := "yo", createdAt := some 1, likeCount := some 7 }] : List Idea).map
        (fun i => (i.id, i.message)) ∧
    (layoutIdeas
        [{ id := "a", message := "hi", createdAt := none, likeCount := some 3 },
         { id := "b", message := "yo", createdAt := none, likeCount := some 0 }] {}).map
        (fun n => (n.x, n.y, n.r)) =
      (layoutIdeas
        [{ id := "a", message := "hi", createdAt := some 9, likeCount := some 99 },
         { id := "b", message := "yo", createdAt := some 1, likeCount := some 7 }] {}).map
        (fun n => (n.x, n.y, n.r)) :=
  ⟨rfl, layout_content_stability _ _ {} rfl⟩

/-- Helper: List.range 3. -/
theorem range_three : List.range 3 = [0, 1, 2] := rfl

/-- Helper: reads of a three-node list. -/
theorem getD3_zero (a b c d : Node) : [a, b, c].getD 0 d = a := rfl

/-- Helper: reads of a three-node list. -/
theorem getD3_one (a b c d : Node) : [a, b, c].getD 1 d = b := rfl

/-- Helper: reads of a three-node list. -/
theorem getD3_two (a b c d : Node) : [a, b, c].getD 2 d = c := rfl

/-- Helper: writes of a three-node list. -/
theorem set3_zero (a b c v : Node) : [a, b, c].set 0 v = [v, b, c] := rfl

/-- Helper: writes of a three-node list. -/
theorem set3_one (a b c v : Node) : [a, b, c].set 1 v = [a, v, c] := rfl

/-- Helper: writes of a three-node list. -/
theorem set3_two (a b c v : Node) : [a, b, c].set 2 v = [a, b, v] := rfl

/-- Helper: relaxation pass 1 of the probe configuration. -/
theorem probePass1 :
    relaxPass (some { x := -10, y := 0, r := 50 }) 100000000 ((350000368928 : ℝ)/3125)
      [{ id := "a", message := "", x := 0, y := 0, r := (976 : ℝ)/25 },
      { id := "b", message := "", x := 0, y := 0, r := (976 : ℝ)/25 },
      { id := "c", message := "", x := 0, y := 0, r := (976 : ℝ)/25 }] =
      [{ id := "a", message := "", x := (2500001976 : ℝ)/25, y := 0, r := (976 : ℝ)/25 },
      { id := "b", message := "", x := (2500001976 : ℝ)/25, y := 0, r := (976 : ℝ)/25 },
      { id := "c", message := "", x := (2500001976 : ℝ)/25, y := 0, r := (976 : ℝ)/25 }] := by
  have k0 : cellOf ((350000368928 : ℝ)/3125) (0) 0 = (0, 0) :=
    cellOf_eval _ _ _ _ _ (by norm_num) (by norm_num) (by norm_num) (by norm_num)
  have k1 : cellOf ((350000368928 : ℝ)/3125) ((2500001976 : ℝ)/25) 0 = (0, 0) :=
    cellOf_eval _ _ _ _ _ (by norm_num) (by norm_num) (by norm_num) (by norm_num)
  rw [relaxPass]
  norm_num [buildGrid, neighborOffsets, obstaclePush, pairAdjust, hypot_x_zero,
    abs_of_nonneg, abs_of_nonpos, Node.mk.injEq, range_three, getD3_zero, getD3_one,
    getD3_two, set3_zero, set3_one, set3_two, Prod.mk.injEq, k0, k1]

/-- Helper: relaxation pass 2 of the probe configuration. -/
theorem probePass2 :
    relaxPass (some { x := -10, y := 0, r := 50 }) 100000000 ((350000368928 : ℝ)/3125)
      [{ id := "a", message := "", x := (2500001976 : ℝ)/25, y := 0, r := (976 : ℝ)/25 },
      { id := "b", message := "", x := (2500001976 : ℝ)/25, y := 0, r := (976 : ℝ)/25 },
      { id := "c", message := "", x := (2500001976 : ℝ)/25, y := 0, r := (976 : ℝ)/25 }] =
      [{ id := "a", message := "", x := (2500002073 : ℝ)/100, y := 0, r := (976 : ℝ)/25 },
      { id := "b", message := "", x := (37500029447 : ℝ)/200, y := 0, r := (976 : ℝ)/25 },
      { id := "c", message := "", x := (2500001976 : ℝ)/25, y := 0, r := (976 : ℝ)/25 }] := by
  have k0 : cellOf ((350000368928 : ℝ)/3125) ((2500001976 : ℝ)/25) 0 = (0, 0) :=
    cellOf_eval _ _ _ _ _ (by norm_num) (by norm_num) (by norm_num) (by norm_num)
  have k1 : cellOf ((350000368928 : ℝ)/3125) ((7500005879 : ℝ)/50) 0 = (1, 0) :=
    cellOf_eval _ _ _ _ _ (by norm_num) (by norm_num) (by norm_num) (by norm_num)
  rw [relaxPass]
  norm_num [buildGrid, neighborOffsets, obstaclePush, pairAdjust, hypot_x_zero,
    abs_of_nonneg, abs_of_nonpos, Node.mk.injEq, range_three, getD3_zero, getD3_one,
    getD3_two, set3_zero, set3_one, set3_two, Prod.mk.injEq, k0, k1]

/-- Helper: relaxation pass 3 of the probe configuration. -/
theorem probePass3 :
    relaxPass (some { x := -10, y := 0, r := 50 }) 100000000 ((350000368928 : ℝ)/3125)
      [{ id := "a", message := "", x := (2500002073 : ℝ)/100, y := 0, r := (976 : ℝ)/25 },
      { id := "b", message := "", x := (37500029447 : ℝ)/200, y := 0, r := (976 : ℝ)/25 },
      { id := "c", message := "", x := (2500001976 : ℝ)/25, y := 0, r := (976 : ℝ)/25 }] =
      [{ id := "a", message := "", x := (100000081 : ℝ)/2, y := 0, r := (976 : ℝ)/25 },
      { id := "b", message := "", x := (87500068579 : ℝ)/400, y := 0, r := (976 : ℝ)/25 },
      { id := "c", message := "", x := (47500037347 : ℝ)/400, y := 0, r := (976 : ℝ)/25 }] := by
  have k0 : cellOf ((350000368928 : ℝ)/3125) ((2500002073 : ℝ)/100) 0 = (0, 0) :=
    cellOf_eval _ _ _ _ _ (by norm_num) (by norm_num) (by norm_num) (by norm_num)
  have k1 : cellOf ((350000368928 : ℝ)/3125) ((37500029447 : ℝ)/200) 0 = (1, 0) :=
    cellOf_eval _ _ _ _ _ (by norm_num) (by norm_num) (by norm_num) (by norm_num)
  have k2 : cellOf ((350000368928 : ℝ)/3125) ((2500001976 : ℝ)/25) 0 = (0, 0) :=
    cellOf_eval _ _ _ _ _ (by norm_num) (by norm_num) (by norm_num) (by norm_num)
  have k3 : cellOf ((350000368928 : ℝ)/3125) ((47500037347 : ℝ)/400) 0 = (1, 0) :=
    cellOf_eval _ _ _ _ _ (by norm_num) (by norm_num) (by norm_num) (by norm_num)
  rw [relaxPass]
  norm_num [buildGrid, neighborOffsets, obstaclePush, pairAdjust, hypot_x_zero,
    abs_of_nonneg, abs_of_nonpos, Node.mk.injEq, range_three, getD3_zero, getD3_one,
    getD3_two, set3_zero, set3_one, set3_two, Prod.mk.injEq, k0, k1, k2, k3]

/-- Helper: relaxation pass 4 of the probe configuration. -/
theorem probePass4 :
    relaxPass (some { x := -10, y := 0, r := 50 }) 100000000 ((350000368928 : ℝ)/3125)
      [{ id := "a", message := "", x := (100000081 : ℝ)/2, y := 0, r := (976 : ℝ)/25 },
      { id := "b", message := "", x := (87500068579 : ℝ)/400, y := 0, r := (976 : ℝ)/25 },
      { id := "c", message := "", x := (47500037347 : ℝ)/400, y := 0, r := (976 : ℝ)/25 }] =
      [{ id := "a", message := "", x := (47500037731 : ℝ)/800, y := 0, r := (976 : ℝ)/25 },
      { id := "b", message := "", x := (382500299817 : ℝ)/1600, y := 0, r := (976 : ℝ)/25 },
      { id := "c", message := "", x := (222500174889 : ℝ)/1600, y := 0, r := (976 : ℝ)/25 }] := by
  have k0 : cellOf ((350000368928 : ℝ)/3125) ((100000081 : ℝ)/2) 0 = (0, 0) :=
    cellOf_eval _ _ _ _ _ (by norm_num) (by norm_num) (by norm_num) (by norm_num)
  have k1 : cellOf ((350000368928 : ℝ)/3125) ((87500068579 : ℝ)/400) 0 = (1, 0) :=
    cellOf_eval _ _ _ _ _ (by norm_num) (by norm_num) (by norm_num) (by norm_num)
  have k2 : cellOf ((350000368928 : ℝ)/3125) ((47500037347 : ℝ)/400) 0 = (1, 0) :=
    cellOf_eval _ _ _ _ _ (by norm_num) (by norm_num) (by norm_num) (by norm_num)
  have k3 : cellOf ((350000368928 : ℝ)/3125) ((2500001976 : ℝ)/25) 0 = (0, 0) :=
    cellOf_eval _ _ _ _ _ (by norm_num) (by norm_num) (by norm_num) (by norm_num)
  have k4 : cellOf ((350000368928 : ℝ)/3125) ((222500174889 : ℝ)/1600) 0 = (1, 0) :=
    cellOf_eval _ _ _ _ _ (by norm_num) (by norm_num) (by norm_num) (by norm_num)
  rw [relaxPass]
  norm_num [buildGrid, neighborOffsets, obstaclePush, pairAdjust, hypot_x_zero,
    abs_of_nonneg, abs_of_nonpos, Node.mk.injEq, range_three, getD3_zero, getD3_one,
    getD3_two, set3_zero, set3_one, set3_two, Prod.mk.injEq, k0, k1, k2, k3, k4]

/-- Helper: relaxation pass 5 of the probe configuration. -/
theorem probePass5 :
    relaxPass (some { x := -10, y := 0, r := 50 }) 100000000 ((350000368928 : ℝ)/3125)
      [{ id := "a", message := "", x := (47500037731 : ℝ)/800, y := 0, r := (976 : ℝ)/25 },
      { id := "b", message := "", x := (382500299817 : ℝ)/1600, y := 0, r := (976 : ℝ)/25 },
      { id := "c", message := "", x := (222500174889 : ℝ)/1600, y := 0, r := (976 : ℝ)/25 }] =
      [{ id := "a", message := "", x := (8900007057 : ℝ)/128, y := 0, r := (976 : ℝ)/25 },
      { id := "b", message := "", x := (1627501275771 : ℝ)/6400, y := 0, r := (976 : ℝ)/25 },
      { id := "c", message := "", x := (987500776059 : ℝ)/6400, y := 0, r := (976 : ℝ)/25 }] := by
  have k0 : cellOf ((350000368928 : ℝ)/3125) ((47500037731 : ℝ)/800) 0 = (0, 0) :=
    cellOf_eval _ _ _ _ _ (by norm_num) (by norm_num) (by norm_num) (by norm_num)
  have k1 : cellOf ((350000368928 : ℝ)/3125) ((382500299817 : ℝ)/1600) 0 = (2, 0) :=
    cellOf_eval _ _ _ _ _ (by norm_num) (by norm_num) (by norm_num) (by norm_num)
  have k2 : cellOf ((350000368928 : ℝ)/3125) ((222500174889 : ℝ)/1600) 0 = (1, 0) :=
    cellOf_eval _ _ _ _ _ (by norm_num) (by norm_num) (by norm_num) (by norm_num)
  have k3 : cellOf ((350000368928 : ℝ)/3125) ((2500001976 : ℝ)/25) 0 = (0, 0) :=
    cellOf_eval _ _ _ _ _ (by norm_num) (by norm_num) (by norm_num) (by norm_num)
  have k4 : cellOf ((350000368928 : ℝ)/3125) ((987500776059 : ℝ)/6400) 0 = (1, 0) :=
    cellOf_eval _ _ _ _ _ (by norm_num) (by norm_num) (by norm_num) (by norm_num)
  rw [relaxPass]
  norm_num [buildGrid, neighborOffsets, obstaclePush, pairAdjust, hypot_x_zero,
    abs_of_nonneg, abs_of_nonpos, Node.mk.injEq, range_three, getD3_zero, getD3_one,
    getD3_two, set3_zero, set3_one, set3_two, Prod.mk.injEq, k0, k1, k2, k3, k4]

/-- Helper: relaxation pass 6 of the probe configuration. -/
theorem probePass6 :
    relaxPass (some { x := -10, y := 0, r := 50 }) 100000000 ((350000368928 : ℝ)/3125)
      [{ id := "a", message := "", x := (8900007057 : ℝ)/128, y := 0, r := (976 : ℝ)/25 },
      { id := "b", message := "", x := (1627501275771 : ℝ)/6400, y := 0, r := (976 : ℝ)/25 },
      { id := "c", message := "", x := (987500776059 : ℝ)/6400, y := 0, r := (976 : ℝ)/25 }] =
      [{ id := "a", message := "", x := (987500782203 : ℝ)/12800, y := 0, r := (976 : ℝ)/25 },
      { id := "b", message := "", x := (6802505332593 : ℝ)/25600, y := 0, r := (976 : ℝ)/25 },
      { id := "c", message := "", x := (848500666749 : ℝ)/5120, y := 0, r := (976 : ℝ)/25 }] := by
  have k0 : cellOf ((350000368928 : ℝ)/3125) ((8900007057 : ℝ)/128) 0 = (0, 0) :=
    cellOf_eval _ _ _ _ _ (by norm_num) (by norm_num) (by norm_num) (by norm_num)
  have k1 : cellOf ((350000368928 : ℝ)/3125) ((1627501275771 : ℝ)/6400) 0 = (2, 0) :=
    cellOf_eval _ _ _ _ _ (by norm_num) (by norm_num) (by norm_num) (by norm_num)
  have k2 : cellOf ((350000368928 : ℝ)/3125) ((987500776059 : ℝ)/6400) 0 = (1, 0) :=
    cellOf_eval _ _ _ _ _ (by norm_num) (by norm_num) (by norm_num) (by norm_num)
  have k3 : cellOf ((350000368928 : ℝ)/3125) ((2500001976 : ℝ)/25) 0 = (0, 0) :=
    cellOf_eval _ _ _ _ _ (by norm_num) (by norm_num) (by norm_num) (by norm_num)
  have k4 : cellOf ((350000368928 : ℝ)/3125) ((848500666749 : ℝ)/5120) 0 = (1, 0) :=
    cellOf_eval _ _ _ _ _ (by norm_num) (by norm_num) (by norm_num) (by norm_num)
  rw [relaxPass]
  norm_num [buildGrid, neighborOffsets, obstaclePush, pairAdjust, hypot_x_zero,
    abs_of_nonneg, abs_of_nonpos, Node.mk.injEq, range_three, getD3_zero, getD3_one,
    getD3_two, set3_zero, set3_one, set3_two, Prod.mk.injEq, k0, k1, k2, k3, k4]

/-- Helper: relaxation pass 7 of the probe configuration. -/
theorem probePass7 :
    relaxPass (some { x := -10, y := 0, r := 50 }) 100000000 ((350000368928 : ℝ)/3125)
      [{ id := "a", message := "", x := (987500782203 : ℝ)/12800, y := 0, r := (976 : ℝ)/25 },
      { id := "b", message := "", x := (6802505332593 : ℝ)/25600, y := 0, r := (976 : ℝ)/25 },
      { id := "c", message := "", x := (848500666749 : ℝ)/5120, y := 0, r := (976 : ℝ)/25 }] =
      [{ id := "a", message := "", x := (4242503358321 : ℝ)/51200, y := 0, r := (976 : ℝ)/25 },
      { id := "b", message := "", x := (28087522018899 : ℝ)/102400, y := 0, r := (976 : ℝ)/25 },
      { id := "c", message := "", x := (17847514023507 : ℝ)/102400, y := 0, r := (976 : ℝ)/25 }] := by
  have k0 : cellOf ((350000368928 : ℝ)/3125) ((987500782203 : ℝ)/12800) 0 = (0, 0) :=
    cellOf_eval _ _ _ _ _ (by norm_num) (by norm_num) (by norm_num) (by norm_num)
  have k1 : cellOf ((350000368928 : ℝ)/3125) ((6802505332593 : ℝ)/25600) 0 = (2, 0) :=
    cellOf_eval _ _ _ _ _ (by norm_num) (by norm_num) (by norm_num) (by norm_num)
  have k2 : cellOf ((350000368928 : ℝ)/3125) ((848500666749 : ℝ)/5120) 0 = (1, 0) :=
    cellOf_eval _ _ _ _ _ (by norm_num) (by norm_num) (by norm_num) (by norm_num)
  have k3 : cellOf ((350000368928 : ℝ)/3125) ((2500001976 : ℝ)/25) 0 = (0, 0) :=
    cellOf_eval _ _ _ _ _ (by norm_num) (by norm_num) (by norm_num) (by norm_num)
  have k4 : cellOf ((350000368928 : ℝ)/3125) ((17847514023507 : ℝ)/102400) 0 = (1, 0) :=
    cellOf_eval _ _ _ _ _ (by norm_num) (by norm_num) (by norm_num) (by norm_num)
  rw [relaxPass]
  norm_num [buildGrid, neighborOffsets, obstaclePush, pairAdjust, hypot_x_zero,
    abs_of_nonneg, abs_of_nonpos, Node.mk.injEq, range_three, getD3_zero, getD3_one,
    getD3_two, set3_zero, set3_one, set3_two, Prod.mk.injEq, k0, k1, k2, k3, k4]

/-- Helper: relaxation pass 8 of the probe configuration. -/
theorem probePass8 :
    relaxPass (some { x := -10, y := 0, r := 50 }) 100000000 ((350000368928 : ℝ)/3125)
      [{ id := "a", message := "", x := (4242503358321 : ℝ)/51200, y := 0, r := (976 : ℝ)/25 },
      { id := "b", message := "", x := (28087522018899 : ℝ)/102400, y := 0, r := (976 : ℝ)/25 },
      { id := "c", message := "", x := (17847514023507 : ℝ)/102400, y := 0, r := (976 : ℝ)/25 }] =
      [{ id := "a", message := "", x := (17847514121811 : ℝ)/204800, y := 0, r := (976 : ℝ)/25 },
      { id := "b", message := "", x := (114982590141177 : ℝ)/409600, y := 0, r := (976 : ℝ)/25 },
      { id := "c", message := "", x := (74022558159609 : ℝ)/409600, y := 0, r := (976 : ℝ)/25 }] := by
  have k0 : cellOf ((350000368928 : ℝ)/3125) ((4242503358321 : ℝ)/51200) 0 = (0, 0) :=
    cellOf_eval _ _ _ _ _ (by norm_num) (by norm_num) (by norm_num) (by norm_num)
  have k1 : cellOf ((350000368928 : ℝ)/3125) ((28087522018899 : ℝ)/102400) 0 = (2, 0) :=
    cellOf_eval _ _ _ _ _ (by norm_num) (by norm_num) (by norm_num) (by norm_num)
  have k2 : cellOf ((350000368928 : ℝ)/3125) ((17847514023507 : ℝ)/102400) 0 = (1, 0) :=
    cellOf_eval _ _ _ _ _ (by norm_num) (by norm_num) (by norm_num) (by norm_num)
  have k3 : cellOf ((350000368928 : ℝ)/3125) ((2500001976 : ℝ)/25) 0 = (0, 0) :=
    cellOf_eval _ _ _ _ _ (by norm_num) (by norm_num) (by norm_num) (by norm_num)
  have k4 : cellOf ((350000368928 : ℝ)/3125) ((74022558159609 : ℝ)/409600) 0 = (1, 0) :=
    cellOf_eval _ _ _ _ _ (by norm_num) (by norm_num) (by norm_num) (by norm_num)
  rw [relaxPass]
  norm_num [buildGrid, neighborOffsets, obstaclePush, pairAdjust, hypot_x_zero,
    abs_of_nonneg, abs_of_nonpos, Node.mk.injEq, range_three, getD3_zero, getD3_one,
    getD3_two, set3_zero, set3_one, set3_two, Prod.mk.injEq, k0, k1, k2, k3, k4]

/-- Helper: relaxation pass 9 of the probe configuration. -/
theorem probePass9 :
    relaxPass (some { x := -10, y := 0, r := 50 }) 100000000 ((350000368928 : ℝ)/3125)
      [{ id := "a", message := "", x := (17847514121811 : ℝ)/204800, y := 0, r := (976 : ℝ)/25 },
      { id := "b", message := "", x := (114982590141177 : ℝ)/409600, y := 0, r := (976 : ℝ)/25 },
      { id := "c", message := "", x := (74022558159609 : ℝ)/409600, y := 0, r := (976 : ℝ)/25 }] =
      [{ id := "a", message := "", x := (2960902342113 : ℝ)/32768, y := 0, r := (976 : ℝ)/25 },
      { id := "b", message := "", x := (467827866761451 : ℝ)/1638400, y := 0, r := (976 : ℝ)/25 },
      { id := "c", message := "", x := (303987738835179 : ℝ)/1638400, y := 0, r := (976 : ℝ)/25 }] := by
  have k0 : cellOf ((350000368928 : ℝ)/3125) ((17847514121811 : ℝ)/204800) 0 = (0, 0) :=
    cellOf_eval _ _ _ _ _ (by norm_num) (by norm_num) (by norm_num) (by norm_num)
  have k1 : cellOf ((350000368928 : ℝ)/3125) ((114982590141177 : ℝ)/409600) 0 = (2, 0) :=
    cellOf_eval _ _ _ _ _ (by norm_num) (by norm_num) (by norm_num) (by norm_num)
  have k2 : cellOf ((350000368928 : ℝ)/3125) ((74022558159609 : ℝ)/409600) 0 = (1, 0) :=
    cellOf_eval _ _ _ _ _ (by norm_num) (by norm_num) (by norm_num) (by norm_num)
  have k3 : cellOf ((350000368928 : ℝ)/3125) ((2500001976 : ℝ)/25) 0 = (0, 0) :=
    cellOf_eval _ _ _ _ _ (by norm_num) (by norm_num) (by norm_num) (by norm_num)
  have k4 : cellOf ((350000368928 : ℝ)/3125) ((303987738835179 : ℝ)/1638400) 0 = (1, 0) :=
    cellOf_eval _ _ _ _ _ (by norm_num) (by norm_num) (by norm_num) (by norm_num)
  rw [relaxPass]
  norm_num [buildGrid, neighborOffsets, obstaclePush, pairAdjust, hypot_x_zero,
    abs_of_nonneg, abs_of_nonpos, Node.mk.injEq, range_three, getD3_zero, getD3_one,
    getD3_two, set3_zero, set3_one, set3_two, Prod.mk.injEq, k0, k1, k2, k3, k4]

/-- Helper: relaxation pass 10 of the probe configuration. -/
theorem probePass10 :
    relaxPass (some { x := -10, y := 0, r := 50 }) 100000000 ((350000368928 : ℝ)/3125)
      [{ id := "a", message := "", x := (2960902342113 : ℝ)/32768, y := 0, r := (976 : ℝ)/25 },
      { id := "b", message := "", x := (467827866761451 : ℝ)/1638400, y := 0, r := (976 : ℝ)/25 },
      { id := "c", message := "", x := (303987738835179 : ℝ)/1638400, y := 0, r := (976 : ℝ)/25 }] =
      [{ id := "a", message := "", x := (303987740408043 : ℝ)/3276800, y := 0, r := (976 : ℝ)/25 },
      { id := "b", message := "", x := (1895003985636033 : ℝ)/6553600, y := 0, r := (976 : ℝ)/25 },
      { id := "c", message := "", x := (247928694786189 : ℝ)/1310720, y := 0, r := (976 : ℝ)/25 }] := by
  have k0 : cellOf ((350000368928 : ℝ)/3125) ((2960902342113 : ℝ)/32768) 0 = (0, 0) :=
    cellOf_eval _ _ _ _ _ (by norm_num) (by norm_num) (by norm_num) (by norm_num)
  have k1 : cellOf ((350000368928 : ℝ)/3125) ((467827866761451 : ℝ)/1638400) 0 = (2, 0) :=
    cellOf_eval _ _ _ _ _ (by norm_num) (by norm_num) (by norm_num) (by norm_num)
  have k2 : cellOf ((350000368928 : ℝ)/3125) ((303987738835179 : ℝ)/1638400) 0 = (1, 0) :=
    cellOf_eval _ _ _ _ _ (by norm_num) (by norm_num) (by norm_num) (by norm_num)
  have k3 : cellOf ((350000368928 : ℝ)/3125) ((2500001976 : ℝ)/25) 0 = (0, 0) :=
    cellOf_eval _ _ _ _ _ (by norm_num) (by norm_num) (by norm_num) (by norm_num)
  have k4 : cellOf ((350000368928 : ℝ)/3125) ((247928694786189 : ℝ)/1310720) 0 = (1, 0) :=
    cellOf_eval _ _ _ _ _ (by norm_num) (by norm_num) (by norm_num) (by norm_num)
  rw [relaxPass]
  norm_num [buildGrid, neighborOffsets, obstaclePush, pairAdjust, hypot_x_zero,
    abs_of_nonneg, abs_of_nonpos, Node.mk.injEq, range_three, getD3_zero, getD3_one,
    getD3_two, set3_zero, set3_one, set3_two, Prod.mk.injEq, k0, k1, k2, k3, k4]

/-- Helper: relaxation pass 11 of the probe configuration. -/
theorem probePass11 :
    relaxPass (some { x := -10, y := 0, r := 50 }) 100000000 ((350000368928 : ℝ)/3125)
      [{ id := "a", message := "", x := (303987740408043 : ℝ)/3276800, y := 0, r := (976 : ℝ)/25 },
      { id := "b", message := "", x := (1895003985636033 : ℝ)/6553600, y := 0, r := (976 : ℝ)/25 },
      { id := "c", message := "", x := (247928694786189 : ℝ)/1310720, y := 0, r := (976 : ℝ)/25 }] =
      [{ id := "a", message := "", x := (1239643480222401 : ℝ)/13107200, y := 0, r := (976 : ℝ)/25 },
      { id := "b", message := "", x := (7651093498314819 : ℝ)/26214400, y := 0, r := (976 : ℝ)/25 },
      { id := "c", message := "", x := (5029651451494467 : ℝ)/26214400, y := 0, r := (976 : ℝ)/25 }] := by
  have k0 : cellOf ((350000368928 : ℝ)/3125) ((303987740408043 : ℝ)/3276800) 0 = (0, 0) :=
    cellOf_eval _ _ _ _ _ (by norm_num) (by norm_num) (by norm_num) (by norm_num)
  have k1 : cellOf ((350000368928 : ℝ)/3125) ((1895003985636033 : ℝ)/6553600) 0 = (2, 0) :=
    cellOf_eval _ _ _ _ _ (by norm_num) (by norm_num) (by norm_num) (by norm_num)
  have k2 : cellOf ((350000368928 : ℝ)/3125) ((247928694786189 : ℝ)/1310720) 0 = (1, 0) :=
    cellOf_eval _ _ _ _ _ (by norm_num) (by norm_num) (by norm_num) (by norm_num)
  have k3 : cellOf ((350000368928 : ℝ)/3125) ((2500001976 : ℝ)/25) 0 = (0, 0) :=
    cellOf_eval _ _ _ _ _ (by norm_num) (by norm_num) (by norm_num) (by norm_num)
  have k4 : cellOf ((350000368928 : ℝ)/3125) ((5029651451494467 : ℝ)/26214400) 0 = (1, 0) :=
    cellOf_eval _ _ _ _ _ (by norm_num) (by norm_num) (by norm_num) (by norm_num)
  rw [relaxPass]
  norm_num [buildGrid, neighborOffsets, obstaclePush, pairAdjust, hypot_x_zero,
    abs_of_nonneg, abs_of_nonpos, Node.mk.injEq, range_three, getD3_zero, getD3_one,
    getD3_two, set3_zero, set3_one, set3_two, Prod.mk.injEq, k0, k1, k2, k3, k4]

/-- Helper: relaxation pass 12 of the probe configuration. -/
theorem probePass12 :
    relaxPass (some { x := -10, y := 0, r := 50 }) 100000000 ((350000368928 : ℝ)/3125)
      [{ id := "a", message := "", x := (1239643480222401 : ℝ)/13107200, y := 0, r := (976 : ℝ)/25 },
      { id := "b", message := "", x := (7651093498314819 : ℝ)/26214400, y := 0, r := (976 : ℝ)/25 },
      { id := "c", message := "", x := (5029651451494467 : ℝ)/26214400, y := 0, r := (976 : ℝ)/25 }] =
      [{ id := "a", message := "", x := (5029651476660291 : ℝ)/52428800, y := 0, r := (976 : ℝ)/25 },
      { id := "b", message := "", x := (30817606660571337 : ℝ)/104857600, y := 0, r := (976 : ℝ)/25 },
      { id := "c", message := "", x := (20331838473289929 : ℝ)/104857600, y := 0, r := (976 : ℝ)/25 }] := by
  have k0 : cellOf ((350000368928 : ℝ)/3125) ((1239643480222401 : ℝ)/13107200) 0 = (0, 0) :=
    cellOf_eval _ _ _ _ _ (by norm_num) (by norm_num) (by norm_num) (by norm_num)
  have k1 : cellOf ((350000368928 : ℝ)/3125) ((7651093498314819 : ℝ)/26214400) 0 = (2, 0) :=
    cellOf_eval _ _ _ _ _ (by norm_num) (by norm_num) (by norm_num) (by norm_num)
  have k2 : cellOf ((350000368928 : ℝ)/3125) ((5029651451494467 : ℝ)/26214400) 0 = (1, 0) :=
    cellOf_eval _ _ _ _ _ (by norm_num) (by norm_num) (by norm_num) (by norm_num)
  have k3 : cellOf ((350000368928 : ℝ)/3125) ((2500001976 : ℝ)/25) 0 = (0, 0) :=
    cellOf_eval _ _ _ _ _ (by norm_num) (by norm_num) (by norm_num) (by norm_num)
  have k4 : cellOf ((350000368928 : ℝ)/3125) ((20331838473289929 : ℝ)/104857600) 0 = (1, 0) :=
    cellOf_eval _ _ _ _ _ (by norm_num) (by norm_num) (by norm_num) (by norm_num)
  rw [relaxPass]
  norm_num [buildGrid, neighborOffsets, obstaclePush, pairAdjust, hypot_x_zero,
    abs_of_nonneg, abs_of_nonpos, Node.mk.injEq, range_three, getD3_zero, getD3_one,
    getD3_two, set3_zero, set3_one, set3_two, Prod.mk.injEq, k0, k1, k2, k3, k4]

/-- Helper: relaxation pass 13 of the probe configuration. -/
theorem probePass13 :
    relaxPass (some { x := -10, y := 0, r := 50 }) 100000000 ((350000368928 : ℝ)/3125)
      [{ id := "a", message := "", x := (5029651476660291 : ℝ)/52428800, y := 0, r := (976 : ℝ)/25 },
      { id := "b", message := "", x := (30817606660571337 : ℝ)/104857600, y := 0, r := (976 : ℝ)/25 },
      { id := "c", message := "", x := (20331838473289929 : ℝ)/104857600, y := 0, r := (976 : ℝ)/25 }] =
      [{ id := "a", message := "", x := (813273542958129 : ℝ)/8388608, y := 0, r := (976 : ℝ)/25 },
      { id := "b", message := "", x := (123910124644221531 : ℝ)/419430400, y := 0, r := (976 : ℝ)/25 },
      { id := "c", message := "", x := (81967051895095899 : ℝ)/419430400, y := 0, r := (976 : ℝ)/25 }] := by
  have k0 : cellOf ((350000368928 : ℝ)/3125) ((5029651476660291 : ℝ)/52428800) 0 = (0, 0) :=
    cellOf_eval _ _ _ _ _ (by norm_num) (by norm_num) (by norm_num) (by norm_num)
  have k1 : cellOf ((350000368928 : ℝ)/3125) ((30817606660571337 : ℝ)/104857600) 0 = (2, 0) :=
    cellOf_eval _ _ _ _ _ (by norm_num) (by norm_num) (by norm_num) (by norm_num)
  have k2 : cellOf ((350000368928 : ℝ)/3125) ((20331838473289929 : ℝ)/104857600) 0 = (1, 0) :=
    cellOf_eval _ _ _ _ _ (by norm_num) (by norm_num) (by norm_num) (by norm_num)
  have k3 : cellOf ((350000368928 : ℝ)/3125) ((2500001976 : ℝ)/25) 0 = (0, 0) :=
    cellOf_eval _ _ _ _ _ (by norm_num) (by norm_num) (by norm_num) (by norm_num)
  have k4 : cellOf ((350000368928 : ℝ)/3125) ((81967051895095899 : ℝ)/419430400) 0 = (1, 0) :=
    cellOf_eval _ _ _ _ _ (by norm_num) (by norm_num) (by norm_num) (by norm_num)
  rw [relaxPass]
  norm_num [buildGrid, neighborOffsets, obstaclePush, pairAdjust, hypot_x_zero,
    abs_of_nonneg, abs_of_nonpos, Node.mk.injEq, range_three, getD3_zero, getD3_one,
    getD3_two, set3_zero, set3_one, set3_two, Prod.mk.injEq, k0, k1, k2, k3, k4]

/-- Helper: relaxation pass 14 of the probe configuration. -/
theorem probePass14 :
    relaxPass (some { x := -10, y := 0, r := 50 }) 100000000 ((350000368928 : ℝ)/3125)
      [{ id := "a", message := "", x := (813273542958129 : ℝ)/8388608, y := 0, r := (976 : ℝ)/25 },
      { id := "b", message := "", x := (123910124644221531 : ℝ)/419430400, y := 0, r := (976 : ℝ)/25 },
      { id := "c", message := "", x := (81967051895095899 : ℝ)/419430400, y := 0, r := (976 : ℝ)/25 }] =
      [{ id := "a", message := "", x := (81967052297749083 : ℝ)/838860800, y := 0, r := (976 : ℝ)/25 },
      { id := "b", message := "", x := (497559592582694673 : ℝ)/1677721600, y := 0, r := (976 : ℝ)/25 },
      { id := "c", message := "", x := (65957460317238429 : ℝ)/335544320, y := 0, r := (976 : ℝ)/25 }] := by
  have k0 : cellOf ((350000368928 : ℝ)/3125) ((813273542958129 : ℝ)/8388608) 0 = (0, 0) :=
    cellOf_eval _ _ _ _ _ (by norm_num) (by norm_num) (by norm_num) (by norm_num)
  have k1 : cellOf ((350000368928 : ℝ)/3125) ((123910124644221531 : ℝ)/419430400) 0 = (2, 0) :=
    cellOf_eval _ _ _ _ _ (by norm_num) (by norm_num) (by norm_num) (by norm_num)
  have k2 : cellOf ((350000368928 : ℝ)/3125) ((81967051895095899 : ℝ)/419430400) 0 = (1, 0) :=
    cellOf_eval _ _ _ _ _ (by norm_num) (by norm_num) (by norm_num) (by norm_num)
  have k3 : cellOf ((350000368928 : ℝ)/3125) ((2500001976 : ℝ)/25) 0 = (0, 0) :=
    cellOf_eval _ _ _ _ _ (by norm_num) (by norm_num) (by norm_num) (by norm_num)
  have k4 : cellOf ((350000368928 : ℝ)/3125) ((65957460317238429 : ℝ)/335544320) 0 = (1, 0) :=
    cellOf_eval _ _ _ _ _ (by norm_num) (by norm_num) (by norm_num) (by norm_num)
  rw [relaxPass]
  norm_num [buildGrid, neighborOffsets, obstaclePush, pairAdjust, hypot_x_zero,
    abs_of_nonneg, abs_of_nonpos, Node.mk.injEq, range_three, getD3_zero, getD3_one,
    getD3_two, set3_zero, set3_one, set3_two, Prod.mk.injEq, k0, k1, k2, k3, k4]

/-- Helper: relaxation pass 15 of the probe configuration. -/
theorem probePass15 :
    relaxPass (some { x := -10, y := 0, r := 50 }) 100000000 ((350000368928 : ℝ)/3125)
      [{ id := "a", message := "", x := (81967052297749083 : ℝ)/838860800, y := 0, r := (976 : ℝ)/25 },
      { id := "b", message := "", x := (497559592582694673 : ℝ)/1677721600, y := 0, r := (976 : ℝ)/25 },
      { id := "c", message := "", x := (65957460317238429 : ℝ)/335544320, y := 0, r := (976 : ℝ)/25 }] =
      [{ id := "a", message := "", x := (329787303196804881 : ℝ)/3355443200, y := 0, r := (976 : ℝ)/25 },
      { id := "b", message := "", x := (1995995652348204339 : ℝ)/6710886400, y := 0, r := (976 : ℝ)/25 },
      { id := "c", message := "", x := (1324906488362194227 : ℝ)/6710886400, y := 0, r := (976 : ℝ)/25 }] := by
  have k0 : cellOf ((350000368928 : ℝ)/3125) ((81967052297749083 : ℝ)/838860800) 0 = (0, 0) :=
    cellOf_eval _ _ _ _ _ (by norm_num) (by norm_num) (by norm_num) (by norm_num)
  have k1 : cellOf ((350000368928 : ℝ)/3125) ((497559592582694673 : ℝ)/1677721600) 0 = (2, 0) :=
    cellOf_eval _ _ _ _ _ (by norm_num) (by norm_num) (by norm_num) (by norm_num)
  have k2 : cellOf ((350000368928 : ℝ)/3125) ((65957460317238429 : ℝ)/335544320) 0 = (1, 0) :=
    cellOf_eval _ _ _ _ _ (by norm_num) (by norm_num) (by norm_num) (by norm_num)
  have k3 : cellOf ((350000368928 : ℝ)/3125) ((2500001976 : ℝ)/25) 0 = (0, 0) :=
    cellOf_eval _ _ _ _ _ (by norm_num) (by norm_num) (by norm_num) (by norm_num)
  have k4 : cellOf ((350000368928 : ℝ)/3125) ((1324906488362194227 : ℝ)/6710886400) 0 = (1, 0) :=
    cellOf_eval _ _ _ _ _ (by norm_num) (by norm_num) (by norm_num) (by norm_num)
  rw [relaxPass]
  norm_num [buildGrid, neighborOffsets, obstaclePush, pairAdjust, hypot_x_zero,
    abs_of_nonneg, abs_of_nonpos, Node.mk.injEq, range_three, getD3_zero, getD3_one,
    getD3_two, set3_zero, set3_one, set3_two, Prod.mk.injEq, k0, k1, k2, k3, k4]

/-- Helper: relaxation pass 16 of the probe configuration. -/
theorem probePass16 :
    relaxPass (some { x := -10, y := 0, r := 50 }) 100000000 ((350000368928 : ℝ)/3125)
      [{ id := "a", message := "", x := (329787303196804881 : ℝ)/3355443200, y := 0, r := (976 : ℝ)/25 },
      { id := "b", message := "", x := (1995995652348204339 : ℝ)/6710886400, y := 0, r := (976 : ℝ)/25 },
      { id := "c", message := "", x := (1324906488362194227 : ℝ)/6710886400, y := 0, r := (976 : ℝ)/25 }] =
      [{ id := "a", message := "", x := (1324906494804645171 : ℝ)/13421772800, y := 0, r := (976 : ℝ)/25 },
      { id := "b", message := "", x := (8001254455445094297 : ℝ)/26843545600, y := 0, r := (976 : ℝ)/25 },
      { id := "c", message := "", x := (5316897799501053849 : ℝ)/26843545600, y := 0, r := (976 : ℝ)/25 }] := by
  have k0 : cellOf ((350000368928 : ℝ)/3125) ((329787303196804881 : ℝ)/3355443200) 0 = (0, 0) :=
    cellOf_eval _ _ _ _ _ (by norm_num) (by norm_num) (by norm_num) (by norm_num)
  have k1 : cellOf ((350000368928 : ℝ)/3125) ((1995995652348204339 : ℝ)/6710886400) 0 = (2, 0) :=
    cellOf_eval _ _ _ _ _ (by norm_num) (by norm_num) (by norm_num) (by norm_num)
  have k2 : cellOf ((350000368928 : ℝ)/3125) ((1324906488362194227 : ℝ)/6710886400) 0 = (1, 0) :=
    cellOf_eval _ _ _ _ _ (by norm_num) (by norm_num) (by norm_num) (by norm_num)
  have k3 : cellOf ((350000368928 : ℝ)/3125) ((2500001976 : ℝ)/25) 0 = (0, 0) :=
    cellOf_eval _ _ _ _ _ (by norm_num) (by norm_num) (by norm_num) (by norm_num)
  have k4 : cellOf ((350000368928 : ℝ)/3125) ((5316897799501053849 : ℝ)/26843545600) 0 = (1, 0) :=
    cellOf_eval _ _ _ _ _ (by norm_num) (by norm_num) (by norm_num) (by norm_num)
  rw [relaxPass]
  norm_num [buildGrid, neighborOffsets, obstaclePush, pairAdjust, hypot_x_zero,
    abs_of_nonneg, abs_of_nonpos, Node.mk.injEq, range_three, getD3_zero, getD3_one,
    getD3_two, set3_zero, set3_one, set3_two, Prod.mk.injEq, k0, k1, k2, k3, k4]

/-- Helper: the initial spiral placement of the probe configuration: density 0
collapses every cell onto the origin. -/
theorem probeInitial : initialNodes probeIdeas probeOpts =
    [{ id := "a", message := "", x := 0, y := 0, r := (976 : ℝ)/25 },
    { id := "b", message := "", x := 0, y := 0, r := (976 : ℝ)/25 },
    { id := "c", message := "", x := 0, y := 0, r := (976 : ℝ)/25 }] := by
  rw [initialNodes]
  simp only [probeIdeas, probeOpts, Option.getD_some, List.enum, List.enumFrom,
    List.map_cons, List.map_nil, mul_zero, zero_mul, hexToPixel]
  rw [show ("".length / 7 : ℕ) = 0 from rfl]
  norm_num [clamp, layoutMaxVisualMul, min_def, max_def]

/-- Helper: the full probe layout, sixteen relaxation passes from the
collapsed initial placement. -/
theorem probeLayout : layoutIdeas probeIdeas probeOpts =
    [{ id := "a", message := "", x := (1324906494804645171 : ℝ)/13421772800, y := 0, r := (976 : ℝ)/25 },
    { id := "b", message := "", x := (8001254455445094297 : ℝ)/26843545600, y := 0, r := (976 : ℝ)/25 },
    { id := "c", message := "", x := (5316897799501053849 : ℝ)/26843545600, y := 0, r := (976 : ℝ)/25 }] := by
  rw [layoutIdeas, probeInitial]
  simp only [probeOpts, Option.getD_some]
  norm_num [layoutMaxVisualMul]
  rw [relaxLoop_succ,
    probePass1,
    relaxLoop_succ,
    probePass2,
    relaxLoop_succ,
    probePass3,
    relaxLoop_succ,
    probePass4,
    relaxLoop_succ,
    probePass5,
    relaxLoop_succ,
    probePass6,
    relaxLoop_succ,
    probePass7,
    relaxLoop_succ,
    probePass8,
    relaxLoop_succ,
    probePass9,
    relaxLoop_succ,
    probePass10,
    relaxLoop_succ,
    probePass11,
    relaxLoop_succ,
    probePass12,
    relaxLoop_succ,
    probePass13,
    relaxLoop_succ,
    probePass14,
    relaxLoop_succ,
    probePass15,
    relaxLoop_succ,
    probePass16]
  rfl

/-- C1 counterexample: a legal options record with iterationCount = 16
(gap 1e8, density 0, a small obstacle just left of the origin) and three
ideas: the sixteen relaxation passes leave the first node about 1.29 million
world units closer to the obstacle center than r + obstacleR + gap requires,
so the no-overlap property fails even with the enormous tolerance
eps = 1e6 (and hence for every smaller tolerance, since shrinking eps only
strengthens the required bound). -/
theorem relaxation_leaves_macroscopic_overlap :
    16 ≤ probeOpts.iterationCount.getD 32 ∧
    ¬ separatedNodes (probeOpts.gap.getD 8) probeOpts.centerObstacle 1000000
        (layoutIdeas probeIdeas probeOpts) := by
  constructor
  · norm_num [probeOpts]
  · rw [probeLayout, separatedNodes]
    rintro ⟨-, hobs⟩
    have h2 := hobs { x := -10, y := 0, r := 50 }
      (by simp [probeOpts, Option.mem_def])
      { id := "a", message := "", x := (1324906494804645171 : ℝ)/13421772800, y := 0,
        r := (976 : ℝ)/25 }
      (by simp)
    rw [show ((0 : ℝ) - 0) = 0 by norm_num, hypot_x_zero] at h2
    rw [abs_of_nonneg (by norm_num)] at h2
    norm_num [probeOpts] at h2

/-- Helper: hypot is nonnegative. -/
theorem hypot_nonneg (dx dy : ℝ) : 0 ≤ hypot dx dy := Real.sqrt_nonneg _

/-- Helper: the obstacle push leaves a node alone when the node already
clears the obstacle by the full margin. -/
theorem obstaclePush_of_separated (gap : ℝ) (o : Obstacle) (a : Node)
    (h : a.r + o.r + gap ≤ hypot (a.x - o.x) (a.y - o.y)) :
    obstaclePush gap o a = a := by
  rw [obstaclePush]
  split_ifs with h1 h2 h2
  · exfalso
    have : (1e-6 : ℝ) < 1 := by norm_num
    linarith
  · rfl
  · exfalso
    linarith
  · rfl

/-- Helper: the pair push leaves two nodes alone when they are already
separated by the full margin. -/
theorem pairAdjust_of_separated (gap : ℝ) (a b : Node)
    (h : a.r + b.r + gap ≤ hypot (b.x - a.x) (b.y - a.y)) :
    pairAdjust gap a b = (a, b) := by
  rw [pairAdjust]
  split_ifs with h1 h2 h2
  · exfalso
    have : (1e-6 : ℝ) < 1 := by norm_num
    linarith
  · rfl
  · exfalso
    linarith
  · rfl

/-- Helper: writing the value already present leaves a list unchanged. -/
theorem set_getD_self (ns : List Node) (i : ℕ) :
    ns.set i (ns.getD i node0) = ns := by
  induction ns generalizing i with
  | nil => rfl
  | cons a t ih =>
    cases i with
    | zero => rfl
    | succ n =>
      rw [List.getD_cons_succ, List.set_cons_succ, ih n]

/-- Helper: a fold whose every step fixes the accumulator fixes it. -/
theorem foldl_fixed_of {α β : Type*} (f : β → α → β) (b : β) (l : List α)
    (h : ∀ a ∈ l, f b a = b) : l.foldl f b = b := by
  induction l with
  | nil => rfl
  | cons x xs ih =>
    rw [List.foldl_cons, h x (List.mem_cons_self x xs)]
    exact ih (fun a ha => h a (List.mem_cons_of_mem x ha))

/-- Helper: every index in a bucket of the spatial grid is a node index. -/
theorem buildGrid_mem (cellSize : ℝ) (ns : List Node) (k : ℤ × ℤ) (j : ℕ)
    (hj : j ∈ buildGrid cellSize ns k) : j < ns.length := by
  rw [buildGrid] at hj
  have H : ∀ (l : List ℕ) (g : ℤ × ℤ → List ℕ),
      (∀ k2 j2, j2 ∈ g k2 → j2 < ns.length) → (∀ i ∈ l, i < ns.length) →
      ∀ k2 j2,
        j2 ∈ l.foldl (fun g i =>
          let n := ns.getD i node0
          let key := cellOf cellSize n.x n.y
          fun k => if k = key then g k ++ [i] else g k) g k2 →
        j2 < ns.length := by
    intro l
    induction l with
    | nil => intro g hg _ k2 j2 hj2; exact hg k2 j2 hj2
    | cons a as ih =>
      intro g hg hl k2 j2 hj2
      rw [List.foldl_cons] at hj2
      refine ih _ ?_ (fun i hi => hl i (List.mem_cons_of_mem a hi)) k2 j2 hj2
      intro k3 j3 hj3
      simp only at hj3
      by_cases hk : k3 = cellOf cellSize (ns.getD a node0).x (ns.getD a node0).y
      · rw [if_pos hk, List.mem_append, List.mem_singleton] at hj3
        rcases hj3 with h3 | h3
        · exact hg k3 j3 h3
        · exact h3 ▸ hl a (List.mem_cons_self a as)
      · rw [if_neg hk] at hj3
        exact hg k3 j3 hj3
  exact H (List.range ns.length) _ (by simp) (fun i hi => List.mem_range.mp hi) k j hj

/-- Helper: the separation relation of two nodes read from a separated
list at increasing indices. -/
theorem separated_pair_getD (gap : ℝ) (obs : Option Obstacle) (ns : List Node)
    (hsep : separatedNodes gap obs 0 ns) (i j : ℕ) (hij : i < j)
    (hj : j < ns.length) :
    (ns.getD i node0).r + (ns.getD j node0).r + gap ≤
      hypot ((ns.getD j node0).x - (ns.getD i node0).x)
        ((ns.getD j node0).y - (ns.getD i node0).y) := by
  have hi : i < ns.length := lt_trans hij hj
  rw [List.getD_eq_getElem ns node0 hi, List.getD_eq_getElem ns node0 hj]
  have := (List.pairwise_iff_getElem.mp hsep.1) i j hi hj hij
  linarith

/-- Helper: the pair-resolution folds of one node of a pass leave a
separated node list unchanged, whatever grid cell they are centered on. -/
theorem innerFolds_fixed (gap cellSize : ℝ) (obs : Option Obstacle)
    (ns : List Node) (hsep : separatedNodes gap obs 0 ns) (i : ℕ)
    (key : ℤ × ℤ) :
    neighborOffsets.foldl (fun ns2 off =>
      (buildGrid cellSize ns (key.1 + off.1, key.2 + off.2)).foldl
        (fun ns3 j => if j ≤ i then ns3
          else
            (ns3.set i (pairAdjust gap (ns3.getD i node0) (ns3.getD j node0)).1).set j
              (pairAdjust gap (ns3.getD i node0) (ns3.getD j node0)).2)
        ns2) ns = ns := by
  refine foldl_fixed_of _ _ _ ?_
  intro off hoff
  refine foldl_fixed_of _ _ _ ?_
  intro j hj
  have hjlen : j < ns.length := buildGrid_mem cellSize ns _ j hj
  by_cases hji : j ≤ i
  · rw [if_pos hji]
  · rw [if_neg hji]
    rw [pairAdjust_of_separated gap _ _
      (separated_pair_getD gap obs ns hsep i j (not_le.mp hji) hjlen)]
    rw [set_getD_self, set_getD_self]

/-- Helper: a relaxation pass leaves a separated node list unchanged: no
step of the pass finds a violated pair or a node inside the obstacle
margin. -/
theorem relaxPass_fixed (obs : Option Obstacle) (gap cellSize : ℝ)
    (ns : List Node) (hsep : separatedNodes gap obs 0 ns) :
    relaxPass obs gap cellSize ns = ns := by
  rw [relaxPass]
  refine foldl_fixed_of _ _ _ ?_
  intro i hi
  have hilen : i < ns.length := List.mem_range.mp hi
  have hmem : ns.getD i node0 ∈ ns := by
    rw [List.getD_eq_getElem ns node0 hilen]
    exact List.getElem_mem hilen
  cases obs with
  | none =>
    dsimp only
    rw [set_getD_self]
    exact innerFolds_fixed gap cellSize none ns hsep i _
  | some o =>
    dsimp only
    rw [obstaclePush_of_separated gap o _
      (by have := hsep.2 o rfl (ns.getD i node0) hmem; linarith)]
    rw [set_getD_self]
    exact innerFolds_fixed gap cellSize (some o) ns hsep i _

/-- Helper: the full relaxation loop leaves a separated node list
unchanged. -/
theorem relaxLoop_fixed (obs : Option Obstacle) (gap cellSize : ℝ) (k : ℕ)
    (ns : List Node) (hsep : separatedNodes gap obs 0 ns) :
    relaxLoop obs gap cellSize k ns = ns := by
  induction k with
  | zero => rfl
  | succ n ih => rw [relaxLoop_succ, relaxPass_fixed obs gap cellSize ns hsep]; exact ih

/-- C1 (amended).  The no-overlap bound is not established by the relaxation
for every input (see the counterexample): the Gauss-Seidel passes can leave
macroscopic overlap after 16 iterations when the configuration starts far
from separated.  What holds is the bound on the configurations the
relaxation accepts as settled: whenever the initial spiral placement already
satisfies the separation bounds (which the spacing of the spiral is designed
to make the common case), every pass is the identity, layoutIdeas returns
the placement unchanged, and the produced node list satisfies both bounds
exactly (tolerance 0), for every iteration count of at least 16. -/
theorem no_overlap_when_initially_separated (ideas : List Idea)
    (opts : LayoutOptions) (hiter : 16 ≤ opts.iterationCount.getD 32)
    (hsep : separatedNodes (opts.gap.getD 8) opts.centerObstacle 0
      (initialNodes ideas opts)) :
    layoutIdeas ideas opts = initialNodes ideas opts ∧
    separatedNodes (opts.gap.getD 8) opts.centerObstacle 0
      (layoutIdeas ideas opts) := by
  have h1 : layoutIdeas ideas opts = initialNodes ideas opts := by
    rw [layoutIdeas]
    exact relaxLoop_fixed _ _ _ _ _ hsep
  exact ⟨h1, h1 ▸ hsep⟩

/-- C1 witness part: the two spiral cells of the witness configuration are
separated from the start. -/
theorem pair_initial_separated :
    separatedNodes (pairOpts.gap.getD 8) pairOpts.centerObstacle 0
      (initialNodes pairIdeas pairOpts) := by
  have hsp : axialSpiral 2 = [((0 : ℤ), (0 : ℤ)), (-1, 1)] := rfl
  have hs3sq : Real.sqrt 3 ^ 2 = 3 := Real.sq_sqrt (by norm_num)
  have hs3pos : (0 : ℝ) < Real.sqrt 3 := Real.sqrt_pos.mpr (by norm_num)
  constructor
  · rw [initialNodes]
    simp only [pairIdeas, pairOpts, Option.getD_some, Option.getD_none,
      List.enum, List.enumFrom, List.map_cons, List.map_nil, List.length_cons,
      List.length_nil, hsp, List.getD_cons_zero, List.getD_cons_succ,
      hexToPixel, List.pairwise_cons, List.not_mem_nil, List.mem_singleton,
      List.mem_cons, List.Pairwise.nil]
    refine ⟨fun b hb => ?_, by simp⟩
    rcases hb with hb | hb
    · subst hb
      rw [show ("".length / 7 : ℕ) = 0 from rfl]
      rw [hypot]
      push_cast
      have key : ((2 * (32 * 1.35 * layoutMaxVisualMul) + 8) / Real.sqrt 3 * 2 *
            (Real.sqrt 3 * (-1 : ℝ) + Real.sqrt 3 / 2 * 1) -
          (2 * (32 * 1.35 * layoutMaxVisualMul) + 8) / Real.sqrt 3 * 2 *
            (Real.sqrt 3 * (0 : ℝ) + Real.sqrt 3 / 2 * 0)) ^ 2 +
          ((2 * (32 * 1.35 * layoutMaxVisualMul) + 8) / Real.sqrt 3 * 2 * (3 / 2 * (1 : ℝ)) -
            (2 * (32 * 1.35 * layoutMaxVisualMul) + 8) / Real.sqrt 3 * 2 * (3 / 2 * 0)) ^ 2 =
          ((28352 : ℝ) / 125) ^ 2 := by
        rw [layoutMaxVisualMul]
        field_simp
        ring_nf
        rw [hs3sq]
        norm_num
      rw [key, Real.sqrt_sq (by norm_num)]
      norm_num [clamp, layoutMaxVisualMul, min_def, max_def]
    · simp at hb
  · simp [pairOpts]

/-- C1 witness: the two-idea configuration with density 2 (whose initial
spiral cells are separated) and iterationCount 16: the layout returns the
initial placement unchanged and it satisfies the separation bounds. -/
theorem no_overlap_when_initially_separated_witness :
    16 ≤ pairOpts.iterationCount.getD 32 ∧
    layoutIdeas pairIdeas pairOpts = initialNodes pairIdeas pairOpts ∧
    separatedNodes (pairOpts.gap.getD 8) pairOpts.centerObstacle 0
      (layoutIdeas pairIdeas pairOpts) := by
  have h := no_overlap_when_initially_separated pairIdeas pairOpts
    (by norm_num [pairOpts]) pair_initial_separated
  exact ⟨by norm_num [pairOpts], h.1, h.2⟩

end Theorems

end IdeaMapSpec
